import Mathlib

/-!
Shallow embedding of `src/python/volcanite/src/volcanite/converter_chunked.py`
(and the utility `__get_format_key_count` from `converter.py`).

Modelling conventions:
* A numpy 3D array is a `Buf`: a ZYX shape together with nested cell lists
  holding `Option Nat` values.  Cells of `np.zeros` hold `some 0`; cells of
  `np.empty` hold `none` (uninitialised memory has no guaranteed value).
* Python slice bounds (including negative indices and clamping) and numpy
  broadcasting of assignments are modelled by `pyResolve` / `bcastOk` /
  `bcastIdx`.  A numpy shape-mismatch or index error raises
  `PyErr.runtimeError`; a missing chunk file raises `PyErr.ioError`;
  the explicit `ValueError` of the configuration check raises
  `PyErr.configError`; other explicit `raise` statements give
  `PyErr.exception`.
* The chunk-file system is a partial map from XYZ chunk indices to buffers
  (`read_volume`/`write_volume` round-trip a buffer unchanged, as the
  repository's own converter tests assert).  Reads and writes are logged as
  events so that statements about the order of I/O can be made.
* Worker threads write to pairwise disjoint slice ranges of the shared
  output buffer and are all joined before `__launch_threads` returns; the
  embedding therefore runs the per-thread work sequentially in spawn order.
-/

namespace Volcanite

/-- Errors of the embedded python code. -/
inductive PyErr where
  | configError : PyErr
  | ioError : PyErr
  | runtimeError : PyErr
  | exception : PyErr
deriving DecidableEq, Repr

/-- An integer triple, indexed 0/1/2 like a numpy array of three ints. -/
structure V3 where
  v0 : Int
  v1 : Int
  v2 : Int
deriving DecidableEq, Repr

def V3.get (v : V3) (d : Nat) : Int :=
  match d with
  | 0 => v.v0
  | 1 => v.v1
  | _ => v.v2

def V3.set (v : V3) (d : Nat) (x : Int) : V3 :=
  match d with
  | 0 => { v with v0 := x }
  | 1 => { v with v1 := x }
  | _ => { v with v2 := x }

/-- Reversal `(a,b,c) ↦ (c,b,a)`: the swap between XYZ argument order and
ZYX numpy order performed at the top of `convert_chunked_volume`. -/
def V3.swap (v : V3) : V3 := ⟨v.v2, v.v1, v.v0⟩

/-- A numpy 3D array in ZYX order, stored as nested cell lists of extents
`s0 × s1 × s2`.  A cell holds `none` when it models uninitialised memory
(`np.empty`). -/
structure Buf where
  s0 : Nat
  s1 : Nat
  s2 : Nat
  cells : List (List (List (Option Nat)))
deriving DecidableEq, Repr

/-- The value of cell `(i, j, k)` (missing cells read as `none`). -/
def Buf.val (b : Buf) (i j k : Nat) : Option Nat :=
  match (b.cells.get? i).bind (fun r => (r.get? j).bind (fun q => q.get? k)) with
  | some v => v
  | none => none

/-- Build a buffer of the given extents from a cell valuation. -/
def mkBuf (s0 s1 s2 : Nat) (f : Nat → Nat → Nat → Option Nat) : Buf :=
  ⟨s0, s1, s2, (List.range s0).map fun i =>
    (List.range s1).map fun j => (List.range s2).map (f i j)⟩

/-- A numpy 2D array (a ZY slice). -/
structure Buf2 where
  t0 : Nat
  t1 : Nat
  cells : List (List (Option Nat))
deriving DecidableEq, Repr

/-- The value of cell `(i, j)` of a 2D array. -/
def Buf2.val (b : Buf2) (i j : Nat) : Option Nat :=
  match (b.cells.get? i).bind (fun r => r.get? j) with
  | some v => v
  | none => none

/-- Build a 2D array of the given extents from a cell valuation. -/
def mkBuf2 (t0 t1 : Nat) (f : Nat → Nat → Option Nat) : Buf2 :=
  ⟨t0, t1, (List.range t0).map fun i => (List.range t1).map (f i)⟩

/-- `np.zeros(shape)` (negative extents do not occur in the modelled runs). -/
def zerosBuf (sh : V3) : Buf :=
  mkBuf sh.v0.toNat sh.v1.toNat sh.v2.toNat (fun _ _ _ => some 0)

/-- `np.empty(shape)`: uninitialised cells. -/
def emptyBuf (sh : V3) : Buf :=
  mkBuf sh.v0.toNat sh.v1.toNat sh.v2.toNat (fun _ _ _ => none)

/-- `np.empty` for a 2D array. -/
def emptyBuf2 (a b : Int) : Buf2 := mkBuf2 a.toNat b.toNat (fun _ _ => none)

/-- Resolve one python slice bound against an axis of length `n`:
negative values count from the end, and the result is clamped to `[0, n]`. -/
def pyResolve (n : Nat) (i : Int) : Nat :=
  if i < 0 then ((n : Int) + i).toNat else min i.toNat n

/-- Start and length of the python slice `[lo:hi]` on an axis of length `n`. -/
def pySlice (n : Nat) (lo hi : Int) : Nat × Nat :=
  (pyResolve n lo, pyResolve n hi - pyResolve n lo)

/-- Python integer indexing on an axis of length `n` (negative wraps once;
out of range is an `IndexError`). -/
def pyIndex (n : Nat) (i : Int) : Option Nat :=
  let j := if i < 0 then i + (n : Int) else i
  if 0 ≤ j ∧ j < (n : Int) then some j.toNat else none

/-- Can a source axis of length `src` be broadcast onto a destination
selection of length `dst` in a numpy assignment? -/
def bcastOk (src dst : Nat) : Bool := src == dst || src == 1

/-- Source index corresponding to destination offset `i` under broadcasting. -/
def bcastIdx (src : Nat) (i : Nat) : Nat := if src = 1 then 0 else i

/-- `dst[:, :] = src` for 3D arrays (the whole of `dst` is the selection),
with numpy broadcasting; a shape mismatch is a `ValueError`. -/
def assignFull3 (dst src : Buf) : Except PyErr Buf :=
  if bcastOk src.s0 dst.s0 && bcastOk src.s1 dst.s1 && bcastOk src.s2 dst.s2 then
    .ok (mkBuf dst.s0 dst.s1 dst.s2 fun i j k =>
      src.val (bcastIdx src.s0 i) (bcastIdx src.s1 j) (bcastIdx src.s2 k))
  else .error .runtimeError

/-- The 2D slice `b[lo0:hi0, lo1:hi1, idx]` of a 3D array. -/
def slice2 (b : Buf) (lo0 hi0 lo1 hi1 idx : Int) : Except PyErr Buf2 :=
  match pyIndex b.s2 idx with
  | none => .error .runtimeError
  | some k =>
    let p0 := pySlice b.s0 lo0 hi0
    let p1 := pySlice b.s1 lo1 hi1
    .ok (mkBuf2 p0.2 p1.2 fun i j => b.val (p0.1 + i) (p1.1 + j) k)

/-- `dst[lo0:hi0, lo1:hi1] = src` for 2D arrays, with broadcasting. -/
def assign2 (dst : Buf2) (lo0 hi0 lo1 hi1 : Int) (src : Buf2) : Except PyErr Buf2 :=
  let p0 := pySlice dst.t0 lo0 hi0
  let p1 := pySlice dst.t1 lo1 hi1
  if bcastOk src.t0 p0.2 && bcastOk src.t1 p1.2 then
    .ok (mkBuf2 dst.t0 dst.t1 fun i j =>
      if p0.1 ≤ i ∧ i < p0.1 + p0.2 ∧ p1.1 ≤ j ∧ j < p1.1 + p1.2 then
        src.val (bcastIdx src.t0 (i - p0.1)) (bcastIdx src.t1 (j - p1.1))
      else dst.val i j)
  else .error .runtimeError

/-- `dst[:, :, lo:hi] = src` for 3D arrays, with broadcasting. -/
def assignDim2 (dst : Buf) (lo hi : Int) (src : Buf) : Except PyErr Buf :=
  let p2 := pySlice dst.s2 lo hi
  if bcastOk src.s0 dst.s0 && bcastOk src.s1 dst.s1 && bcastOk src.s2 p2.2 then
    .ok (mkBuf dst.s0 dst.s1 dst.s2 fun i j k =>
      if p2.1 ≤ k ∧ k < p2.1 + p2.2 then
        src.val (bcastIdx src.s0 i) (bcastIdx src.s1 j) (bcastIdx src.s2 (k - p2.1))
      else dst.val i j k)
  else .error .runtimeError

/-- `np.swapaxes(b, 0, 2)`. -/
def swapaxes02 (b : Buf) : Buf := mkBuf b.s2 b.s1 b.s0 (fun i j k => b.val k j i)

/-- The `volume_information` dictionary (format strings and dtype dropped:
files are addressed by chunk index, values are plain naturals). -/
structure VolInfo where
  chunk_size_in : V3
  volume_dim : V3
  chunk_size_out : V3
  elements_to_read : V3
deriving DecidableEq, Repr

/-- The four booleans of the `chunks_needed` array. -/
structure N4 where
  n0 : Bool
  n1 : Bool
  n2 : Bool
  n3 : Bool
deriving DecidableEq, Repr

/-- The `chunk_information` dictionary.  `stitch` is a numpy int array in the
source (assigned `True` = 1 and tested for truthiness), kept as `V3`. -/
structure ChunkInfo where
  chunk_index : V3
  start_element : V3
  end_element : V3
  stitch : V3
  chunks_needed : N4
deriving DecidableEq, Repr

/-- A chunk-file read or write, by XYZ chunk index. -/
inductive Ev where
  | readEv : Int × Int × Int → Ev
  | writeEv : Int × Int × Int → Ev
deriving DecidableEq, Repr

/-- The chunk-file system backing `path_in_format`: XYZ index to contents. -/
def FS := Int × Int × Int → Option Buf

/-- Build a file system from an association list. -/
def fsOfList (l : List ((Int × Int × Int) × Buf)) : FS := fun i =>
  (l.find? (fun p => decide (p.1 = i))).map Prod.snd

/-- Whole interpreter state: the two dictionaries, the `data` list of four
input-chunk buffers, the event log and the chunk files written so far. -/
structure CSt where
  vi : VolInfo
  ci : ChunkInfo
  data0 : Buf
  data1 : Buf
  data2 : Buf
  data3 : Buf
  evs : List Ev
  outs : List ((Int × Int × Int) × Buf)
deriving DecidableEq, Repr

/-- Result of a stateful computation: python exceptions leave the state
(event log, files already written) observable. -/
inductive PRes (α : Type) where
  | ok : α → CSt → PRes α
  | err : PyErr → CSt → PRes α
deriving DecidableEq, Repr

/-- State-plus-exceptions monad for the coordinator. -/
def PM (α : Type) : Type := CSt → PRes α

def PM.pure (a : α) : PM α := fun s => .ok a s

def PM.bind (m : PM α) (f : α → PM β) : PM β := fun s =>
  match m s with
  | .ok a s1 => f a s1
  | .err e s1 => .err e s1

instance : Monad PM where
  pure := PM.pure
  bind := PM.bind

def PM.get : PM CSt := fun s => .ok s s

def PM.modify (f : CSt → CSt) : PM Unit := fun s => .ok () (f s)

def PM.throw (e : PyErr) : PM α := fun s => .err e s

/-- Run a pure `Except` computation inside `PM`. -/
def liftE (x : Except PyErr α) : PM α := fun s =>
  match x with
  | .ok a => .ok a s
  | .error e => .err e s

/-- Iterate a monadic body over a list (a python `for` loop). -/
def forList (l : List α) (f : α → PM Unit) : PM Unit :=
  match l with
  | [] => PM.pure ()
  | a :: r => PM.bind (f a) (fun _ => forList r f)

/-- `vc.read_volume` on the chunk file with XYZ index `i`: the read attempt
is logged; a missing file raises. -/
def readVolumeM (fs : FS) (i : Int × Int × Int) : PM Buf := fun s =>
  match fs i with
  | some b => .ok b { s with evs := s.evs ++ [.readEv i] }
  | none => .err .ioError { s with evs := s.evs ++ [.readEv i] }

/-- `vc.write_volume` of `b` to the output chunk file with XYZ index `i`. -/
def writeVolumeM (i : Int × Int × Int) (b : Buf) : PM Unit := fun s =>
  .ok () { s with evs := s.evs ++ [.writeEv i], outs := s.outs ++ [(i, b)] }

/-- `python range(0, stop, step)` for a positive step (the only use here);
`step == 0` is a `ValueError`. -/
def pyRange (stop step : Int) : Except PyErr (List Int) :=
  if step = 0 then .error .exception
  else if step < 0 then .ok []
  else if stop ≤ 0 then .ok []
  else .ok (((List.range ((stop.toNat + step.toNat - 1) / step.toNat)).map
    (fun k => step * (k : Int))))

/-- `__read_tmp_chunk_zy`: allocate a `chunk_size_in` buffer of zeros and
assign the chunk file at the (1-based, ZYX-stored) `chunk_index` into it.
The file is addressed as `path_in_format.format(idx[2]-1, idx[1]-1, idx[0]-1)`,
i.e. by the XYZ index `(idx[2]-1, idx[1]-1, idx[0]-1)`. -/
def readTmpChunkZy (fs : FS) : PM Buf := do
  let s ← PM.get
  let tmp := zerosBuf s.vi.chunk_size_in
  let b ← readVolumeM fs
    (s.ci.chunk_index.v2 - 1, s.ci.chunk_index.v1 - 1, s.ci.chunk_index.v0 - 1)
  liftE (assignFull3 tmp b)

/-- `__get_indices(chunk_information, volume_information, dim)`. -/
def getIndices (dim : Nat) : PM Unit := PM.modify fun s =>
  let vi := s.vi
  let ci := s.ci
  let ci := { ci with start_element := ci.start_element.set dim (ci.end_element.get dim) }
  let cur : Int := 0
  if cur < vi.chunk_size_out.get dim then
    let newEnd := min (vi.chunk_size_in.get dim - ci.end_element.get dim)
      (vi.chunk_size_out.get dim - cur) + ci.start_element.get dim
    let ci := { ci with end_element := ci.end_element.set dim newEnd }
    let adv := ci.end_element.get dim = ci.start_element.get dim
    let cur := if adv then cur + vi.chunk_size_in.get dim
               else cur + (ci.end_element.get dim - ci.start_element.get dim)
    let ci := if adv then
        { ci with start_element := ci.start_element.set dim 0,
                  chunk_index := ci.chunk_index.set dim (ci.chunk_index.get dim + 1) }
      else ci
    let ci := if cur < vi.chunk_size_out.get dim then
        { ci with end_element := ci.end_element.set dim (vi.chunk_size_out.get dim - cur),
                  stitch := ci.stitch.set dim 1 }
      else ci
    { s with ci := ci,
             vi := { vi with elements_to_read :=
               vi.elements_to_read.set dim (vi.elements_to_read.get dim - cur) } }
  else
    { s with ci := ci,
             vi := { vi with elements_to_read :=
               vi.elements_to_read.set dim (vi.elements_to_read.get dim - cur) } }

/-- `__load_current_chunk` (the `dim` argument is unused in the source). -/
def loadCurrentChunk (fs : FS) (_dim : Nat) : PM Buf := readTmpChunkZy fs

/-- `__load_next_chunk`: temporarily advance `chunk_index[dim]`, read, and
restore the index; calling it without `stitch[dim]` raises. -/
def loadNextChunk (fs : FS) (dim : Nat) : PM Buf := do
  let s ← PM.get
  if s.ci.stitch.get dim ≠ 0 then do
    let saved := s.ci.chunk_index
    PM.modify fun s => { s with ci := { s.ci with
      chunk_index := s.ci.chunk_index.set dim (s.ci.chunk_index.get dim + 1) } }
    let b ← readTmpChunkZy fs
    PM.modify fun s => { s with ci := { s.ci with chunk_index := saved } }
    pure b
  else PM.throw .exception

/-- `data[0] = __load_current_chunk(...)`. -/
def loadChunksD0 (fs : FS) : PM Unit := do
  let b0 ← loadCurrentChunk fs 0
  PM.modify fun s => { s with data0 := b0 }

/-- `if chunks_needed[1]: data[1] = __load_next_chunk(..., 1)`. -/
def loadChunksD1 (fs : FS) : PM Unit := do
  let s ← PM.get
  if s.ci.chunks_needed.n1 then do
    let b1 ← loadNextChunk fs 1
    PM.modify fun s => { s with data1 := b1 }

/-- `if chunks_needed[2]: data[2] = __load_next_chunk(..., 0)`. -/
def loadChunksD2 (fs : FS) : PM Unit := do
  let s ← PM.get
  if s.ci.chunks_needed.n2 then do
    let b2 ← loadNextChunk fs 0
    PM.modify fun s => { s with data2 := b2 }

/-- `if chunks_needed[3]:` temporarily advance the chunk index along both
axes 0 and 1, read, and restore. -/
def loadChunksD3 (fs : FS) : PM Unit := do
  let s ← PM.get
  if s.ci.chunks_needed.n3 then do
    let saved := s.ci.chunk_index
    PM.modify fun s => { s with ci := { s.ci with
      chunk_index := (s.ci.chunk_index.set 0 (s.ci.chunk_index.v0 + 1)).set 1
        (s.ci.chunk_index.v1 + 1) } }
    let b3 ← loadCurrentChunk fs 0
    PM.modify fun s => { s with ci := { s.ci with chunk_index := saved } }
    PM.modify fun s => { s with data3 := b3 }

/-- `__load_chunks`: fill the `data` list with the current chunk and the
needed neighbours (`chunks_needed` indices 1, 2, 3). -/
def loadChunks (fs : FS) : PM Unit := do
  loadChunksD0 fs
  loadChunksD1 fs
  loadChunksD2 fs
  loadChunksD3 fs

/-- `__get_slice_zy`: build one ZY output slice at inner index `idx` from
the 1, 2 or 4 loaded buffers, following the source's slice expressions. -/
def getSliceZy (vi : VolInfo) (ci : ChunkInfo) (d0 d1 d2 d3 : Buf) (idx : Int) :
    Except PyErr Buf2 :=
  let co := vi.chunk_size_out
  let cin := vi.chunk_size_in
  let st := ci.start_element
  let en := ci.end_element
  let tmp := emptyBuf2 co.v0 co.v1
  let efc0 := cin.v0 - st.v0
  let efc1 := cin.v1 - st.v1
  if ci.stitch.v0 ≠ 0 ∧ ci.stitch.v1 ≠ 0 then do
    let su ← slice2 d0 st.v0 (d0.s0 : Int) (cin.v1 - en.v1) (d0.s1 : Int) idx
    let tmp ← assign2 tmp 0 efc0 0 efc1 su
    let su ← slice2 d1 (cin.v0 - en.v0) (d1.s0 : Int) 0 (co.v1 - efc1) idx
    let tmp ← assign2 tmp 0 efc0 efc1 (tmp.t1 : Int) su
    let su ← slice2 d2 0 efc1 st.v1 (d2.s1 : Int) idx
    let tmp ← assign2 tmp efc0 (tmp.t0 : Int) 0 efc1 su
    let su ← slice2 d3 0 efc1 0 (co.v1 - efc1) idx
    assign2 tmp efc0 (tmp.t0 : Int) efc1 (tmp.t1 : Int) su
  else if ci.stitch.v0 ≠ 0 then do
    let su ← slice2 d0 st.v0 (d0.s0 : Int) st.v1 (st.v1 + co.v1) idx
    let tmp ← assign2 tmp 0 efc0 0 (tmp.t1 : Int) su
    let su ← slice2 d2 0 (co.v0 - efc0) st.v1 (st.v1 + co.v1) idx
    assign2 tmp efc0 (tmp.t0 : Int) 0 (tmp.t1 : Int) su
  else if ci.stitch.v1 ≠ 0 then do
    let su ← slice2 d0 st.v0 (st.v0 + co.v0) st.v1 (d0.s1 : Int) idx
    let tmp ← assign2 tmp 0 (tmp.t0 : Int) 0 efc1 su
    let su ← slice2 d1 st.v0 (st.v0 + co.v0) 0 (co.v1 - efc1) idx
    assign2 tmp 0 (tmp.t0 : Int) efc1 (tmp.t1 : Int) su
  else do
    let su ← slice2 d0 st.v0 en.v0 st.v1 en.v1 idx
    assign2 tmp 0 co.v0 0 co.v1 su

/-- `__stitch_zy_chunks_together`: build the ZY slices for inner indices
`start + 0 .. start + (end - start) - 1`, stack them (each 2D write
`tmp[:, :, sc] = slice` matches shapes exactly by construction), then
assign the stack into `stitched[:, :, start+off : end+off]`. -/
def stitchZyChunksTogether (vi : VolInfo) (ci : ChunkInfo) (d0 d1 d2 d3 : Buf)
    (start end_ slice_count_offset : Int) (stitched : Buf) : Except PyErr Buf := do
  let n := (end_ - start).toNat
  let slices ← (List.range n).mapM
    (fun sc => getSliceZy vi ci d0 d1 d2 d3 (start + (sc : Int)))
  let tmp3 : Buf := mkBuf vi.chunk_size_out.v0.toNat vi.chunk_size_out.v1.toNat n
    (fun i j k =>
      match slices.get? k with
      | some sl => sl.val i j
      | none => none)
  assignDim2 stitched (start + slice_count_offset) (end_ + slice_count_offset) tmp3

/-- The per-thread slice ranges produced by the loop of `__launch_threads`:
thread `i` receives `(start, end)`, after which
`start += spt + (1 if i > 0 and i-1 < remainder else 0)` and
`end += spt + (1 if i < remainder else 0)`. -/
def launchRangesAux (spt rem : Int) : Nat → Nat → Int → Int → List (Int × Int)
  | _, 0, _, _ => []
  | i, fuel+1, s, e =>
    (s, e) :: launchRangesAux spt rem (i+1) fuel
      (s + spt + (if 0 < i ∧ (i : Int) - 1 < rem then 1 else 0))
      (e + spt + (if (i : Int) < rem then 1 else 0))

/-- All thread ranges of one `__launch_threads` call
(`remainder = global_end - thread_count * slices_per_thread`). -/
def launchRanges (global_start global_end spt : Int) (tc : Nat) : List (Int × Int) :=
  launchRangesAux spt (global_end - (tc : Int) * spt) 0 tc global_start (spt + global_start)

/-- `__launch_threads`: every spawned thread runs
`__stitch_zy_chunks_together` on its own slice range of the shared output
buffer and all threads are joined before returning; the write ranges are
processed here sequentially in spawn order. -/
def launchThreads (vi : VolInfo) (ci : ChunkInfo) (d0 d1 d2 d3 : Buf)
    (slice_count_offset global_start global_end spt : Int) (tc : Nat)
    (stitched : Buf) : Except PyErr Buf :=
  (launchRanges global_start global_end spt tc).foldlM
    (fun b r => stitchZyChunksTogether vi ci d0 d1 d2 d3 r.1 r.2 slice_count_offset b)
    stitched

/-- Characters of `last_chunk.split(".")[0]`. -/
def splitDotHead (s : String) : List Char := s.data.takeWhile (fun c => c ≠ '.')

/-- Maximal runs of digits, as numbers (the effect of `re.findall`
followed by `int` conversion). -/
def digitRunsAux : List Char → Option Nat → List Nat
  | [], none => []
  | [], some acc => [acc]
  | c :: r, acc =>
    if c.isDigit then
      digitRunsAux r (some ((acc.getD 0) * 10 + (c.toNat - 48)))
    else
      match acc with
      | none => digitRunsAux r none
      | some a => a :: digitRunsAux r none

/-- `re.findall(r"\d+", last_chunk.split(".")[0])` as numbers. -/
def parseChunkIndices (s : String) : List Nat := digitRunsAux (splitDotHead s) none

/-- `__calculate_volume_dim`: componentwise
`chunk_size_in * parsed_indices + read_volume(last_chunk).shape`.
The elementwise product is evaluated before the read, so a digit list that
is not broadcastable raises first; the file named `last_chunk` is the chunk
at the parsed XYZ index (a one-element digit list would broadcast in numpy
but then names no real chunk file, so it is folded into the raised error). -/
def volumeDimFrom (chunk_size_in : V3) (a b c : Nat) (buf : Buf) : V3 :=
  ⟨chunk_size_in.v0 * (a : Int) + (buf.s0 : Int),
   chunk_size_in.v1 * (b : Int) + (buf.s1 : Int),
   chunk_size_in.v2 * (c : Int) + (buf.s2 : Int)⟩

def calculateVolumeDim (fs : FS) (chunk_size_in : V3) (last_chunk : String) : PM V3 := do
  match parseChunkIndices last_chunk with
  | [a, b, c] => do
    let buf ← readVolumeM fs ((a : Int), (b : Int), (c : Int))
    pure (volumeDimFrom chunk_size_in a b c buf)
  | _ => PM.throw .exception

/-- `__update_and_reset_params`. -/
def updateAndResetParams (dim : Nat) (chunk_size_out volume_dim : V3) : PM Unit :=
  PM.modify fun s =>
    let ci := s.ci
    let vi := s.vi
    let ci := if ci.stitch.get dim ≠ 0 then
        { ci with chunk_index := ci.chunk_index.set dim (ci.chunk_index.get dim + 1) }
      else ci
    let ci := { ci with stitch := ci.stitch.set dim 0 }
    let vi := { vi with chunk_size_out := vi.chunk_size_out.set dim (chunk_size_out.get dim) }
    let vi := if chunk_size_out.get dim > vi.elements_to_read.get dim ∧
        vi.elements_to_read.get dim > 0 then
        { vi with chunk_size_out := vi.chunk_size_out.set dim (vi.elements_to_read.get dim) }
      else vi
    let p : ChunkInfo × VolInfo :=
      if dim = 1 then
        ({ ci with chunks_needed := { ci.chunks_needed with n1 := false, n3 := false } },
         { vi with elements_to_read := vi.elements_to_read.set 2 volume_dim.v2 })
      else (ci, vi)
    let q : ChunkInfo × VolInfo :=
      if dim = 0 then
        ({ p.1 with chunks_needed :=
            { p.1.chunks_needed with n1 := false, n2 := false, n3 := false } },
         { p.2 with elements_to_read := p.2.elements_to_read.set 1 volume_dim.v1 })
      else p
    { s with ci := q.1, vi := q.2 }

/-- `is_volume_conversion_valid`. -/
def isVolumeConversionValid (chunk_size_in chunk_size_out volume_dim : V3) : Bool :=
  if chunk_size_in.v0 * 2 < chunk_size_out.v0 ∨ chunk_size_in.v1 * 2 < chunk_size_out.v1 ∨
      chunk_size_in.v2 * 2 < chunk_size_out.v2 then false
  else if volume_dim.v0 < chunk_size_out.v0 ∨ volume_dim.v1 < chunk_size_out.v1 ∨
      volume_dim.v2 < chunk_size_out.v2 then false
  else true

/-- `if stitch[0] and stitch[1]: chunks_needed[3] = True`. -/
def markNeeded3IfBoth : PM Unit := PM.modify fun s =>
  if s.ci.stitch.v0 ≠ 0 ∧ s.ci.stitch.v1 ≠ 0 then
    { s with ci := { s.ci with chunks_needed := { s.ci.chunks_needed with n3 := true } } }
  else s

/-- Body of the innermost (`x`) loop of `convert_chunked_volume`:
advance the alignment on axis 2, fetch the needed chunks, run the first
compositor pass over `elements_in_first_chunk` slices, run a second pass
from the next input chunk along axis 2 if the first pass covered fewer
than `chunk_size_out[2]` slices, swap axes 0 and 2 of the finished buffer
and write it, then restore/clip `chunk_size_out[2]`. -/
def xStep (fs : FS) (cso : V3) (tc : Nat) (z y x : Int) : PM Unit := do
  getIndices 2
  markNeeded3IfBoth
  loadChunks fs
  let s ← PM.get
  let stitched := emptyBuf s.vi.chunk_size_out
  let eifc := min (s.vi.chunk_size_in.v2 - s.ci.start_element.v2) cso.v2
  let spt := Int.fdiv eifc (tc : Int)
  let stitched ← liftE (launchThreads s.vi s.ci s.data0 s.data1 s.data2 s.data3
    (-(s.ci.start_element.v2)) (s.ci.start_element.v2) eifc spt tc stitched)
  let s ← PM.get
  let stitched ←
    if eifc < s.vi.chunk_size_out.v2 then do
      PM.modify fun s => { s with ci := { s.ci with
        chunk_index := s.ci.chunk_index.set 2 (s.ci.chunk_index.v2 + 1) } }
      loadChunks fs
      let s ← PM.get
      let n2 := cso.v2 - eifc
      let spt2 := Int.fdiv n2 (tc : Int)
      liftE (launchThreads s.vi s.ci s.data0 s.data1 s.data2 s.data3
        eifc 0 n2 spt2 tc stitched)
    else pure stitched
  writeVolumeM (Int.fdiv x cso.v2, Int.fdiv y cso.v1, Int.fdiv z cso.v0)
    (swapaxes02 stitched)
  PM.modify fun s =>
    let vi1 : VolInfo := { s.vi with chunk_size_out := s.vi.chunk_size_out.set 2 cso.v2 }
    let vi2 : VolInfo :=
      if vi1.elements_to_read.v2 < cso.v2 ∧ vi1.elements_to_read.v2 > 0 then
        { vi1 with chunk_size_out := vi1.chunk_size_out.set 2 vi1.elements_to_read.v2 }
      else vi1
    { s with vi := vi2 }

/-- The reset `chunk_index[dim] = 1; end_element[dim] = 0` performed at the
head of the `z` loop body (`dim = 1`) and of the `y` loop body (`dim = 2`). -/
def setIndexEnd (dim : Nat) : PM Unit := PM.modify fun s =>
  { s with ci := { s.ci with
    chunk_index := s.ci.chunk_index.set dim 1,
    end_element := s.ci.end_element.set dim 0 } }

/-- `if chunk_information['stitch'][0]: chunks_needed[2] = True`. -/
def markNeeded2IfStitch0 : PM Unit := PM.modify fun s =>
  if s.ci.stitch.v0 ≠ 0 then
    { s with ci := { s.ci with chunks_needed := { s.ci.chunks_needed with n2 := true } } }
  else s

/-- `if chunk_information['stitch'][1]: chunks_needed[1] = True`. -/
def markNeeded1IfStitch1 : PM Unit := PM.modify fun s =>
  if s.ci.stitch.v1 ≠ 0 then
    { s with ci := { s.ci with chunks_needed := { s.ci.chunks_needed with n1 := true } } }
  else s

/-- Body of the middle (`y`) loop of `convert_chunked_volume`. -/
def yStep (fs : FS) (cso vd : V3) (tc : Nat) (z y : Int) : PM Unit := do
  setIndexEnd 2
  getIndices 1
  markNeeded1IfStitch1
  let xs ← liftE (pyRange vd.v2 cso.v2)
  forList xs (fun x => xStep fs cso tc z y x)
  updateAndResetParams 1 cso vd

/-- Body of the outer (`z`) loop of `convert_chunked_volume`. -/
def zStep (fs : FS) (cso vd : V3) (tc : Nat) (z : Int) : PM Unit := do
  setIndexEnd 1
  getIndices 0
  markNeeded2IfStitch0
  let ys ← liftE (pyRange vd.v1 cso.v1)
  forList ys (fun y => yStep fs cso vd tc z y)
  updateAndResetParams 0 cso vd

/-- The initial `chunk_information` of `convert_chunked_volume`. -/
def initChunkInfo : ChunkInfo :=
  ⟨⟨1, 1, 1⟩, ⟨0, 0, 0⟩, ⟨0, 0, 0⟩, ⟨0, 0, 0⟩, ⟨false, false, false, false⟩⟩

/-- The `data` list entries start as `np.array([])`. -/
def emptyData : Buf := ⟨0, 0, 0, []⟩

/-- Initialise the `volume_information` / `chunk_information` dictionaries
and the `data` list (lines 213 to 227 of the source). -/
def initDicts (csi vd cso : V3) : PM Unit := PM.modify fun s =>
  { s with
    vi := ⟨csi, vd, cso, vd⟩,
    ci := initChunkInfo,
    data0 := emptyData, data1 := emptyData, data2 := emptyData, data3 := emptyData }

/-- The output-grid sweep of `convert_chunked_volume`, after validation. -/
def convertBody (fs : FS) (csi vd cso : V3) (tc : Nat) : PM Unit := do
  initDicts csi vd cso
  let zs ← liftE (pyRange vd.v0 cso.v0)
  forList zs (fun z => zStep fs cso vd tc z)

/-- `convert_chunked_volume(path_in_format, chunk_size_in, last_chunk,
path_out_format, chunk_size_out, thread_count)`: compute the volume
dimension from the last chunk, swap the XYZ argument triples into the ZYX
order of the numpy buffers, validate, then sweep the output grid. -/
def convertChunkedVolumeM (fs : FS) (chunk_size_in : V3) (last_chunk : String)
    (chunk_size_out : V3) (tc : Nat) : PM Unit := do
  let vd0 ← calculateVolumeDim fs chunk_size_in last_chunk
  let cso := chunk_size_out.swap
  let csi := chunk_size_in.swap
  let vd := vd0.swap
  if isVolumeConversionValid csi cso vd then convertBody fs csi vd cso tc
  else PM.throw .configError

/-- State at entry of `convert_chunked_volume` (no events, no files written;
the dictionaries are set up by the function itself). -/
def initSt : CSt :=
  ⟨⟨⟨0, 0, 0⟩, ⟨0, 0, 0⟩, ⟨0, 0, 0⟩, ⟨0, 0, 0⟩⟩, initChunkInfo,
   emptyData, emptyData, emptyData, emptyData, [], []⟩

/-- Run `convert_chunked_volume` from a fresh state. -/
def convertChunkedVolume (fs : FS) (chunk_size_in : V3) (last_chunk : String)
    (chunk_size_out : V3) (tc : Nat) : PRes Unit :=
  convertChunkedVolumeM fs chunk_size_in last_chunk chunk_size_out tc initSt

/-- Did the run finish without a python exception? -/
def PRes.isOkB : PRes α → Bool
  | .ok _ _ => true
  | .err _ _ => false

/-- The raised error, if any. -/
def PRes.errOf : PRes α → Option PyErr
  | .ok _ _ => none
  | .err e _ => some e

/-- The event log of the final (or error) state. -/
def PRes.events : PRes α → List Ev
  | .ok _ s => s.evs
  | .err _ s => s.evs

/-- The chunk files written, in write order. -/
def PRes.outFiles : PRes α → List ((Int × Int × Int) × Buf)
  | .ok _ s => s.outs
  | .err _ s => s.outs

/-- The final `chunk_index`, when the run succeeded. -/
def PRes.chunkIndexOf : PRes α → Option V3
  | .ok _ s => some s.ci.chunk_index
  | .err _ _ => none

/-- Value of the written chunk file `i` at cell `(a, b, c)` (ZYX), together
with its shape; `none` when no such file was written. -/
def outFileAt (r : PRes α) (i : Int × Int × Int) : Option Buf :=
  (r.outFiles.reverse.find? (fun p => decide (p.1 = i))).map Prod.snd

/-- Scanner of `string.Formatter().parse`: count replacement fields.  The
boolean says whether we are inside a field (scanning for `}`); `none`
models the `ValueError` raised for unbalanced braces. -/
def fkcAux : List Char → Bool → Option Nat
  | [], false => some 0
  | [], true => none
  | c :: r, true => if c = '}' then (fkcAux r false).map (· + 1) else fkcAux r true
  | '{' :: '{' :: r, false => fkcAux r false
  | '{' :: r, false => fkcAux r true
  | '}' :: '}' :: r, false => fkcAux r false
  | '}' :: _, false => none
  | _ :: r, false => fkcAux r false

/-- `vc.__get_format_key_count`: the number of python string format keys. -/
def getFormatKeyCount (s : String) : Option Nat := fkcAux s.data false

/-- The sub-volume `volume[z:min(s0, z+c0), y:min(s1, y+c1), x:min(s2, x+c2)]`
written for one chunk by `write_chunked_volume` (`z, y, x ≥ 0` from `range`). -/
def subVolume (volume : Buf) (cs : V3) (z y x : Int) : Buf :=
  let e0 := min (volume.s0 : Int) (z + cs.v0)
  let e1 := min (volume.s1 : Int) (y + cs.v1)
  let e2 := min (volume.s2 : Int) (x + cs.v2)
  mkBuf (e0 - z).toNat (e1 - y).toNat (e2 - x).toNat
    (fun i j k => volume.val (z.toNat + i) (y.toNat + j) (x.toNat + k))

/-- `write_chunked_volume(volume, path_out_format, chunk_size)`: the files
written, as XYZ index / contents pairs, or the exception raised before any
file is written. -/
def writeChunkedVolume (volume : Buf) (path_out_format : String) (chunk_size : V3) :
    Except PyErr (List ((Int × Int × Int) × Buf)) := do
  if getFormatKeyCount path_out_format ≠ some 1 then throw .exception
  else do
    let zs ← pyRange (volume.s0 : Int) chunk_size.v0
    let ys ← pyRange (volume.s1 : Int) chunk_size.v1
    let xs ← pyRange (volume.s2 : Int) chunk_size.v2
    pure (zs.flatMap fun z => ys.flatMap fun y => xs.map fun x =>
      ((Int.fdiv x chunk_size.v2, Int.fdiv y chunk_size.v1, Int.fdiv z chunk_size.v0),
       subVolume volume chunk_size z y x))

/-- Two buffers hold the same chunk: same shape and same guaranteed cell
values everywhere inside the shape. -/
def BufEq (a b : Buf) : Prop :=
  a.s0 = b.s0 ∧ a.s1 = b.s1 ∧ a.s2 = b.s2 ∧
  ∀ i < a.s0, ∀ j < a.s1, ∀ k < a.s2, a.val i j k = b.val i j k

instance (a b : Buf) : Decidable (BufEq a b) := by
  unfold BufEq; infer_instance

/-! ### Concrete runs used by the claim analyses -/

/-- Helper for writing concrete fully-initialised chunk buffers. -/
def bufOfFn (s0 s1 s2 : Nat) (f : Nat → Nat → Nat → Nat) : Buf :=
  mkBuf s0 s1 s2 (fun i j k => some (f i j k))

/-- C8 failing input: one cubic 2x2x2 chunk whose only nonzero voxel is at
ZYX position (0,0,1). -/
def chunkC8 : Buf := bufOfFn 2 2 2 (fun i j k => if i = 0 ∧ j = 0 ∧ k = 1 then 5 else 0)

/-- C8 failing input file system: the volume equals the single chunk. -/
def fsC8 : FS := fsOfList [((0,0,0), chunkC8)]

/-- C1 failing input: a 1x1x2 (ZYX) volume stored as two 1x1x1 chunks along
the X axis, with values 1 and 2. -/
def fsC1 : FS := fsOfList [((0,0,0), bufOfFn 1 1 1 (fun _ _ _ => 1)),
                           ((1,0,0), bufOfFn 1 1 1 (fun _ _ _ => 2))]

/-- Interpreter state reached during the `C8` run. -/
def stC8_0 : CSt :=
  { vi := { chunk_size_in := { v0 := 0, v1 := 0, v2 := 0 },
            volume_dim := { v0 := 0, v1 := 0, v2 := 0 },
            chunk_size_out := { v0 := 0, v1 := 0, v2 := 0 },
            elements_to_read := { v0 := 0, v1 := 0, v2 := 0 } },
    ci := { chunk_index := { v0 := 1, v1 := 1, v2 := 1 },
            start_element := { v0 := 0, v1 := 0, v2 := 0 },
            end_element := { v0 := 0, v1 := 0, v2 := 0 },
            stitch := { v0 := 0, v1 := 0, v2 := 0 },
            chunks_needed := { n0 := false, n1 := false, n2 := false, n3 := false } },
    data0 := { s0 := 0, s1 := 0, s2 := 0, cells := [] },
    data1 := { s0 := 0, s1 := 0, s2 := 0, cells := [] },
    data2 := { s0 := 0, s1 := 0, s2 := 0, cells := [] },
    data3 := { s0 := 0, s1 := 0, s2 := 0, cells := [] },
    evs := [Volcanite.Ev.readEv (0, 0, 0)],
    outs := [] }

/-- Interpreter state reached during the `C8` run. -/
def stC8_1 : CSt :=
  { vi := { chunk_size_in := { v0 := 2, v1 := 2, v2 := 2 },
            volume_dim := { v0 := 2, v1 := 2, v2 := 2 },
            chunk_size_out := { v0 := 2, v1 := 2, v2 := 2 },
            elements_to_read := { v0 := 2, v1 := 2, v2 := 2 } },
    ci := { chunk_index := { v0 := 1, v1 := 1, v2 := 1 },
            start_element := { v0 := 0, v1 := 0, v2 := 0 },
            end_element := { v0 := 0, v1 := 0, v2 := 0 },
            stitch := { v0 := 0, v1 := 0, v2 := 0 },
            chunks_needed := { n0 := false, n1 := false, n2 := false, n3 := false } },
    data0 := { s0 := 0, s1 := 0, s2 := 0, cells := [] },
    data1 := { s0 := 0, s1 := 0, s2 := 0, cells := [] },
    data2 := { s0 := 0, s1 := 0, s2 := 0, cells := [] },
    data3 := { s0 := 0, s1 := 0, s2 := 0, cells := [] },
    evs := [Volcanite.Ev.readEv (0, 0, 0)],
    outs := [] }

/-- Interpreter state reached during the `C8` run. -/
def stC8_4 : CSt :=
  { vi := { chunk_size_in := { v0 := 2, v1 := 2, v2 := 2 },
            volume_dim := { v0 := 2, v1 := 2, v2 := 2 },
            chunk_size_out := { v0 := 2, v1 := 2, v2 := 2 },
            elements_to_read := { v0 := 0, v1 := 2, v2 := 2 } },
    ci := { chunk_index := { v0 := 1, v1 := 1, v2 := 1 },
            start_element := { v0 := 0, v1 := 0, v2 := 0 },
            end_element := { v0 := 2, v1 := 0, v2 := 0 },
            stitch := { v0 := 0, v1 := 0, v2 := 0 },
            chunks_needed := { n0 := false, n1 := false, n2 := false, n3 := false } },
    data0 := { s0 := 0, s1 := 0, s2 := 0, cells := [] },
    data1 := { s0 := 0, s1 := 0, s2 := 0, cells := [] },
    data2 := { s0 := 0, s1 := 0, s2 := 0, cells := [] },
    data3 := { s0 := 0, s1 := 0, s2 := 0, cells := [] },
    evs := [Volcanite.Ev.readEv (0, 0, 0)],
    outs := [] }

/-- Interpreter state reached during the `C8` run. -/
def stC8_8 : CSt :=
  { vi := { chunk_size_in := { v0 := 2, v1 := 2, v2 := 2 },
            volume_dim := { v0 := 2, v1 := 2, v2 := 2 },
            chunk_size_out := { v0 := 2, v1 := 2, v2 := 2 },
            elements_to_read := { v0 := 0, v1 := 0, v2 := 2 } },
    ci := { chunk_index := { v0 := 1, v1 := 1, v2 := 1 },
            start_element := { v0 := 0, v1 := 0, v2 := 0 },
            end_element := { v0 := 2, v1 := 2, v2 := 0 },
            stitch := { v0 := 0, v1 := 0, v2 := 0 },
            chunks_needed := { n0 := false, n1 := false, n2 := false, n3 := false } },
    data0 := { s0 := 0, s1 := 0, s2 := 0, cells := [] },
    data1 := { s0 := 0, s1 := 0, s2 := 0, cells := [] },
    data2 := { s0 := 0, s1 := 0, s2 := 0, cells := [] },
    data3 := { s0 := 0, s1 := 0, s2 := 0, cells := [] },
    evs := [Volcanite.Ev.readEv (0, 0, 0)],
    outs := [] }

/-- Interpreter state reached during the `C8` run. -/
def stC8_11 : CSt :=
  { vi := { chunk_size_in := { v0 := 2, v1 := 2, v2 := 2 },
            volume_dim := { v0 := 2, v1 := 2, v2 := 2 },
            chunk_size_out := { v0 := 2, v1 := 2, v2 := 2 },
            elements_to_read := { v0 := 0, v1 := 0, v2 := 0 } },
    ci := { chunk_index := { v0 := 1, v1 := 1, v2 := 1 },
            start_element := { v0 := 0, v1 := 0, v2 := 0 },
            end_element := { v0 := 2, v1 := 2, v2 := 2 },
            stitch := { v0 := 0, v1 := 0, v2 := 0 },
            chunks_needed := { n0 := false, n1 := false, n2 := false, n3 := false } },
    data0 := { s0 := 2,
               s1 := 2,
               s2 := 2,
               cells := [[[some 0, some 5], [some 0, some 0]], [[some 0, some 0], [some 0, some 0]]] },
    data1 := { s0 := 0, s1 := 0, s2 := 0, cells := [] },
    data2 := { s0 := 0, s1 := 0, s2 := 0, cells := [] },
    data3 := { s0 := 0, s1 := 0, s2 := 0, cells := [] },
    evs := [Volcanite.Ev.readEv (0, 0, 0), Volcanite.Ev.readEv (0, 0, 0), Volcanite.Ev.writeEv (0, 0, 0)],
    outs := [((0, 0, 0),
              { s0 := 2,
                s1 := 2,
                s2 := 2,
                cells := [[[some 0, some 0], [some 0, some 0]], [[some 5, some 0], [some 0, some 0]]] })] }

/-- Interpreter state reached during the `C8` run. -/
def stC8_13 : CSt :=
  { vi := { chunk_size_in := { v0 := 2, v1 := 2, v2 := 2 },
            volume_dim := { v0 := 2, v1 := 2, v2 := 2 },
            chunk_size_out := { v0 := 2, v1 := 2, v2 := 2 },
            elements_to_read := { v0 := 0, v1 := 0, v2 := 2 } },
    ci := { chunk_index := { v0 := 1, v1 := 1, v2 := 1 },
            start_element := { v0 := 0, v1 := 0, v2 := 0 },
            end_element := { v0 := 2, v1 := 2, v2 := 2 },
            stitch := { v0 := 0, v1 := 0, v2 := 0 },
            chunks_needed := { n0 := false, n1 := false, n2 := false, n3 := false } },
    data0 := { s0 := 2,
               s1 := 2,
               s2 := 2,
               cells := [[[some 0, some 5], [some 0, some 0]], [[some 0, some 0], [some 0, some 0]]] },
    data1 := { s0 := 0, s1 := 0, s2 := 0, cells := [] },
    data2 := { s0 := 0, s1 := 0, s2 := 0, cells := [] },
    data3 := { s0 := 0, s1 := 0, s2 := 0, cells := [] },
    evs := [Volcanite.Ev.readEv (0, 0, 0), Volcanite.Ev.readEv (0, 0, 0), Volcanite.Ev.writeEv (0, 0, 0)],
    outs := [((0, 0, 0),
              { s0 := 2,
                s1 := 2,
                s2 := 2,
                cells := [[[some 0, some 0], [some 0, some 0]], [[some 5, some 0], [some 0, some 0]]] })] }

/-- Interpreter state reached during the `C8` run. -/
def stC8_15 : CSt :=
  { vi := { chunk_size_in := { v0 := 2, v1 := 2, v2 := 2 },
            volume_dim := { v0 := 2, v1 := 2, v2 := 2 },
            chunk_size_out := { v0 := 2, v1 := 2, v2 := 2 },
            elements_to_read := { v0 := 0, v1 := 2, v2 := 2 } },
    ci := { chunk_index := { v0 := 1, v1 := 1, v2 := 1 },
            start_element := { v0 := 0, v1 := 0, v2 := 0 },
            end_element := { v0 := 2, v1 := 2, v2 := 2 },
            stitch := { v0 := 0, v1 := 0, v2 := 0 },
            chunks_needed := { n0 := false, n1 := false, n2 := false, n3 := false } },
    data0 := { s0 := 2,
               s1 := 2,
               s2 := 2,
               cells := [[[some 0, some 5], [some 0, some 0]], [[some 0, some 0], [some 0, some 0]]] },
    data1 := { s0 := 0, s1 := 0, s2 := 0, cells := [] },
    data2 := { s0 := 0, s1 := 0, s2 := 0, cells := [] },
    data3 := { s0 := 0, s1 := 0, s2 := 0, cells := [] },
    evs := [Volcanite.Ev.readEv (0, 0, 0), Volcanite.Ev.readEv (0, 0, 0), Volcanite.Ev.writeEv (0, 0, 0)],
    outs := [((0, 0, 0),
              { s0 := 2,
                s1 := 2,
                s2 := 2,
                cells := [[[some 0, some 0], [some 0, some 0]], [[some 5, some 0], [some 0, some 0]]] })] }

/-- Interpreter state reached during the `C1a` run. -/
def stC1a_0 : CSt :=
  { vi := { chunk_size_in := { v0 := 0, v1 := 0, v2 := 0 },
            volume_dim := { v0 := 0, v1 := 0, v2 := 0 },
            chunk_size_out := { v0 := 0, v1 := 0, v2 := 0 },
            elements_to_read := { v0 := 0, v1 := 0, v2 := 0 } },
    ci := { chunk_index := { v0 := 1, v1 := 1, v2 := 1 },
            start_element := { v0 := 0, v1 := 0, v2 := 0 },
            end_element := { v0 := 0, v1 := 0, v2 := 0 },
            stitch := { v0 := 0, v1 := 0, v2 := 0 },
            chunks_needed := { n0 := false, n1 := false, n2 := false, n3 := false } },
    data0 := { s0 := 0, s1 := 0, s2 := 0, cells := [] },
    data1 := { s0 := 0, s1 := 0, s2 := 0, cells := [] },
    data2 := { s0 := 0, s1 := 0, s2 := 0, cells := [] },
    data3 := { s0 := 0, s1 := 0, s2 := 0, cells := [] },
    evs := [Volcanite.Ev.readEv (1, 0, 0)],
    outs := [] }

/-- Interpreter state reached during the `C1a` run. -/
def stC1a_1 : CSt :=
  { vi := { chunk_size_in := { v0 := 1, v1 := 1, v2 := 1 },
            volume_dim := { v0 := 1, v1 := 1, v2 := 2 },
            chunk_size_out := { v0 := 1, v1 := 1, v2 := 2 },
            elements_to_read := { v0 := 1, v1 := 1, v2 := 2 } },
    ci := { chunk_index := { v0 := 1, v1 := 1, v2 := 1 },
            start_element := { v0 := 0, v1 := 0, v2 := 0 },
            end_element := { v0 := 0, v1 := 0, v2 := 0 },
            stitch := { v0 := 0, v1 := 0, v2 := 0 },
            chunks_needed := { n0 := false, n1 := false, n2 := false, n3 := false } },
    data0 := { s0 := 0, s1 := 0, s2 := 0, cells := [] },
    data1 := { s0 := 0, s1 := 0, s2 := 0, cells := [] },
    data2 := { s0 := 0, s1 := 0, s2 := 0, cells := [] },
    data3 := { s0 := 0, s1 := 0, s2 := 0, cells := [] },
    evs := [Volcanite.Ev.readEv (1, 0, 0)],
    outs := [] }

/-- Interpreter state reached during the `C1a` run. -/
def stC1a_4 : CSt :=
  { vi := { chunk_size_in := { v0 := 1, v1 := 1, v2 := 1 },
            volume_dim := { v0 := 1, v1 := 1, v2 := 2 },
            chunk_size_out := { v0 := 1, v1 := 1, v2 := 2 },
            elements_to_read := { v0 := 0, v1 := 1, v2 := 2 } },
    ci := { chunk_index := { v0 := 1, v1 := 1, v2 := 1 },
            start_element := { v0 := 0, v1 := 0, v2 := 0 },
            end_element := { v0 := 1, v1 := 0, v2 := 0 },
            stitch := { v0 := 0, v1 := 0, v2 := 0 },
            chunks_needed := { n0 := false, n1 := false, n2 := false, n3 := false } },
    data0 := { s0 := 0, s1 := 0, s2 := 0, cells := [] },
    data1 := { s0 := 0, s1 := 0, s2 := 0, cells := [] },
    data2 := { s0 := 0, s1 := 0, s2 := 0, cells := [] },
    data3 := { s0 := 0, s1 := 0, s2 := 0, cells := [] },
    evs := [Volcanite.Ev.readEv (1, 0, 0)],
    outs := [] }

/-- Interpreter state reached during the `C1a` run. -/
def stC1a_8 : CSt :=
  { vi := { chunk_size_in := { v0 := 1, v1 := 1, v2 := 1 },
            volume_dim := { v0 := 1, v1 := 1, v2 := 2 },
            chunk_size_out := { v0 := 1, v1 := 1, v2 := 2 },
            elements_to_read := { v0 := 0, v1 := 0, v2 := 2 } },
    ci := { chunk_index := { v0 := 1, v1 := 1, v2 := 1 },
            start_element := { v0 := 0, v1 := 0, v2 := 0 },
            end_element := { v0 := 1, v1 := 1, v2 := 0 },
            stitch := { v0 := 0, v1 := 0, v2 := 0 },
            chunks_needed := { n0 := false, n1 := false, n2 := false, n3 := false } },
    data0 := { s0 := 0, s1 := 0, s2 := 0, cells := [] },
    data1 := { s0 := 0, s1 := 0, s2 := 0, cells := [] },
    data2 := { s0 := 0, s1 := 0, s2 := 0, cells := [] },
    data3 := { s0 := 0, s1 := 0, s2 := 0, cells := [] },
    evs := [Volcanite.Ev.readEv (1, 0, 0)],
    outs := [] }

/-- Interpreter state reached during the `C1a` run. -/
def stC1a_11 : CSt :=
  { vi := { chunk_size_in := { v0 := 1, v1 := 1, v2 := 1 },
            volume_dim := { v0 := 1, v1 := 1, v2 := 2 },
            chunk_size_out := { v0 := 1, v1 := 1, v2 := 1 },
            elements_to_read := { v0 := 0, v1 := 0, v2 := 1 } },
    ci := { chunk_index := { v0 := 1, v1 := 1, v2 := 2 },
            start_element := { v0 := 0, v1 := 0, v2 := 0 },
            end_element := { v0 := 1, v1 := 1, v2 := 1 },
            stitch := { v0 := 0, v1 := 0, v2 := 1 },
            chunks_needed := { n0 := false, n1 := false, n2 := false, n3 := false } },
    data0 := { s0 := 1, s1 := 1, s2 := 1, cells := [[[some 2]]] },
    data1 := { s0 := 0, s1 := 0, s2 := 0, cells := [] },
    data2 := { s0 := 0, s1 := 0, s2 := 0, cells := [] },
    data3 := { s0 := 0, s1 := 0, s2 := 0, cells := [] },
    evs := [Volcanite.Ev.readEv (1, 0, 0),
            Volcanite.Ev.readEv (0, 0, 0),
            Volcanite.Ev.readEv (1, 0, 0),
            Volcanite.Ev.writeEv (0, 0, 0)],
    outs := [((0, 0, 0), { s0 := 2, s1 := 1, s2 := 1, cells := [[[some 1]], [[some 2]]] })] }

/-- Interpreter state reached during the `C1a` run. -/
def stC1a_13 : CSt :=
  { vi := { chunk_size_in := { v0 := 1, v1 := 1, v2 := 1 },
            volume_dim := { v0 := 1, v1 := 1, v2 := 2 },
            chunk_size_out := { v0 := 1, v1 := 1, v2 := 1 },
            elements_to_read := { v0 := 0, v1 := 0, v2 := 2 } },
    ci := { chunk_index := { v0 := 1, v1 := 1, v2 := 2 },
            start_element := { v0 := 0, v1 := 0, v2 := 0 },
            end_element := { v0 := 1, v1 := 1, v2 := 1 },
            stitch := { v0 := 0, v1 := 0, v2 := 1 },
            chunks_needed := { n0 := false, n1 := false, n2 := false, n3 := false } },
    data0 := { s0 := 1, s1 := 1, s2 := 1, cells := [[[some 2]]] },
    data1 := { s0 := 0, s1 := 0, s2 := 0, cells := [] },
    data2 := { s0 := 0, s1 := 0, s2 := 0, cells := [] },
    data3 := { s0 := 0, s1 := 0, s2 := 0, cells := [] },
    evs := [Volcanite.Ev.readEv (1, 0, 0),
            Volcanite.Ev.readEv (0, 0, 0),
            Volcanite.Ev.readEv (1, 0, 0),
            Volcanite.Ev.writeEv (0, 0, 0)],
    outs := [((0, 0, 0), { s0 := 2, s1 := 1, s2 := 1, cells := [[[some 1]], [[some 2]]] })] }

/-- Interpreter state reached during the `C1a` run. -/
def stC1a_15 : CSt :=
  { vi := { chunk_size_in := { v0 := 1, v1 := 1, v2 := 1 },
            volume_dim := { v0 := 1, v1 := 1, v2 := 2 },
            chunk_size_out := { v0 := 1, v1 := 1, v2 := 1 },
            elements_to_read := { v0 := 0, v1 := 1, v2 := 2 } },
    ci := { chunk_index := { v0 := 1, v1 := 1, v2 := 2 },
            start_element := { v0 := 0, v1 := 0, v2 := 0 },
            end_element := { v0 := 1, v1 := 1, v2 := 1 },
            stitch := { v0 := 0, v1 := 0, v2 := 1 },
            chunks_needed := { n0 := false, n1 := false, n2 := false, n3 := false } },
    data0 := { s0 := 1, s1 := 1, s2 := 1, cells := [[[some 2]]] },
    data1 := { s0 := 0, s1 := 0, s2 := 0, cells := [] },
    data2 := { s0 := 0, s1 := 0, s2 := 0, cells := [] },
    data3 := { s0 := 0, s1 := 0, s2 := 0, cells := [] },
    evs := [Volcanite.Ev.readEv (1, 0, 0),
            Volcanite.Ev.readEv (0, 0, 0),
            Volcanite.Ev.readEv (1, 0, 0),
            Volcanite.Ev.writeEv (0, 0, 0)],
    outs := [((0, 0, 0), { s0 := 2, s1 := 1, s2 := 1, cells := [[[some 1]], [[some 2]]] })] }

/-- The chunk grid written by the first C1 conversion. -/
def fsC1b : FS := fsOfList stC1a_15.outs

/-- Interpreter state reached during the `C1b` run. -/
def stC1b_1 : CSt :=
  { vi := { chunk_size_in := { v0 := 1, v1 := 1, v2 := 2 },
            volume_dim := { v0 := 1, v1 := 1, v2 := 2 },
            chunk_size_out := { v0 := 1, v1 := 1, v2 := 1 },
            elements_to_read := { v0 := 1, v1 := 1, v2 := 2 } },
    ci := { chunk_index := { v0 := 1, v1 := 1, v2 := 1 },
            start_element := { v0 := 0, v1 := 0, v2 := 0 },
            end_element := { v0 := 0, v1 := 0, v2 := 0 },
            stitch := { v0 := 0, v1 := 0, v2 := 0 },
            chunks_needed := { n0 := false, n1 := false, n2 := false, n3 := false } },
    data0 := { s0 := 0, s1 := 0, s2 := 0, cells := [] },
    data1 := { s0 := 0, s1 := 0, s2 := 0, cells := [] },
    data2 := { s0 := 0, s1 := 0, s2 := 0, cells := [] },
    data3 := { s0 := 0, s1 := 0, s2 := 0, cells := [] },
    evs := [Volcanite.Ev.readEv (0, 0, 0)],
    outs := [] }

/-- Interpreter state reached during the `C1b` run. -/
def stC1b_4 : CSt :=
  { vi := { chunk_size_in := { v0 := 1, v1 := 1, v2 := 2 },
            volume_dim := { v0 := 1, v1 := 1, v2 := 2 },
            chunk_size_out := { v0 := 1, v1 := 1, v2 := 1 },
            elements_to_read := { v0 := 0, v1 := 1, v2 := 2 } },
    ci := { chunk_index := { v0 := 1, v1 := 1, v2 := 1 },
            start_element := { v0 := 0, v1 := 0, v2 := 0 },
            end_element := { v0 := 1, v1 := 0, v2 := 0 },
            stitch := { v0 := 0, v1 := 0, v2 := 0 },
            chunks_needed := { n0 := false, n1 := false, n2 := false, n3 := false } },
    data0 := { s0 := 0, s1 := 0, s2 := 0, cells := [] },
    data1 := { s0 := 0, s1 := 0, s2 := 0, cells := [] },
    data2 := { s0 := 0, s1 := 0, s2 := 0, cells := [] },
    data3 := { s0 := 0, s1 := 0, s2 := 0, cells := [] },
    evs := [Volcanite.Ev.readEv (0, 0, 0)],
    outs := [] }

/-- Interpreter state reached during the `C1b` run. -/
def stC1b_8 : CSt :=
  { vi := { chunk_size_in := { v0 := 1, v1 := 1, v2 := 2 },
            volume_dim := { v0 := 1, v1 := 1, v2 := 2 },
            chunk_size_out := { v0 := 1, v1 := 1, v2 := 1 },
            elements_to_read := { v0 := 0, v1 := 0, v2 := 2 } },
    ci := { chunk_index := { v0 := 1, v1 := 1, v2 := 1 },
            start_element := { v0 := 0, v1 := 0, v2 := 0 },
            end_element := { v0 := 1, v1 := 1, v2 := 0 },
            stitch := { v0 := 0, v1 := 0, v2 := 0 },
            chunks_needed := { n0 := false, n1 := false, n2 := false, n3 := false } },
    data0 := { s0 := 0, s1 := 0, s2 := 0, cells := [] },
    data1 := { s0 := 0, s1 := 0, s2 := 0, cells := [] },
    data2 := { s0 := 0, s1 := 0, s2 := 0, cells := [] },
    data3 := { s0 := 0, s1 := 0, s2 := 0, cells := [] },
    evs := [Volcanite.Ev.readEv (0, 0, 0)],
    outs := [] }

/-- Interpreter state reached during the `C1b` run. -/
def stC1b_11 : CSt :=
  { vi := { chunk_size_in := { v0 := 1, v1 := 1, v2 := 2 },
            volume_dim := { v0 := 1, v1 := 1, v2 := 2 },
            chunk_size_out := { v0 := 1, v1 := 1, v2 := 1 },
            elements_to_read := { v0 := 0, v1 := 0, v2 := 1 } },
    ci := { chunk_index := { v0 := 1, v1 := 1, v2 := 1 },
            start_element := { v0 := 0, v1 := 0, v2 := 0 },
            end_element := { v0 := 1, v1 := 1, v2 := 1 },
            stitch := { v0 := 0, v1 := 0, v2 := 0 },
            chunks_needed := { n0 := false, n1 := false, n2 := false, n3 := false } },
    data0 := { s0 := 0, s1 := 0, s2 := 0, cells := [] },
    data1 := { s0 := 0, s1 := 0, s2 := 0, cells := [] },
    data2 := { s0 := 0, s1 := 0, s2 := 0, cells := [] },
    data3 := { s0 := 0, s1 := 0, s2 := 0, cells := [] },
    evs := [Volcanite.Ev.readEv (0, 0, 0), Volcanite.Ev.readEv (0, 0, 0)],
    outs := [] }

/-- The value returned by a successful run. -/
def PRes.valOf : PRes α → Option α
  | .ok a _ => some a
  | .err _ _ => none

/-- XYZ chunk-file index addressed by `__read_tmp_chunk_zy` for a (1-based,
ZYX-stored) `chunk_index`: `(idx[2]-1, idx[1]-1, idx[0]-1)`. -/
def fileIndexOf (idx : V3) : Int × Int × Int := (idx.v2 - 1, idx.v1 - 1, idx.v0 - 1)

/-- The chunk files read by one `__load_chunks` call, in order: the current
chunk always; then, as requested by `chunks_needed`, the next chunk along
axis 1 (file index `y+1`), the next chunk along axis 0 (file index `z+1`),
and the diagonal neighbour (`y+1` and `z+1`). -/
def loadChunksReads (ci : ChunkInfo) : List Ev :=
  [.readEv (fileIndexOf ci.chunk_index)]
  ++ (if ci.chunks_needed.n1 then
       [.readEv (fileIndexOf (ci.chunk_index.set 1 (ci.chunk_index.get 1 + 1)))] else [])
  ++ (if ci.chunks_needed.n2 then
       [.readEv (fileIndexOf (ci.chunk_index.set 0 (ci.chunk_index.get 0 + 1)))] else [])
  ++ (if ci.chunks_needed.n3 then
       [.readEv (fileIndexOf ((ci.chunk_index.set 0 (ci.chunk_index.v0 + 1)).set 1
         (ci.chunk_index.v1 + 1)))] else [])

/-- Modelled from the spec: "Output: `volume_dim` (ZYX), computed as
`Cin * last_chunk_index + shape(last_chunk)` per axis" — i.e. the result
triple is claimed to be in ZYX order, pairing the Z chunk size with the Z
filename index and the Z extent of the loaded chunk, and so on.  With
`chunk_size_in` given in XYZ argument order, filename indices `(a, b, c)`
for `x{a}y{b}z{c}` and the loaded shape in ZYX order, that reads as
follows. -/
def specVolumeDimZYX (chunk_size_in : V3) (a b c : Nat) (buf : Buf) : V3 :=
  ⟨chunk_size_in.v2 * (c : Int) + (buf.s0 : Int),
   chunk_size_in.v1 * (b : Int) + (buf.s1 : Int),
   chunk_size_in.v0 * (a : Int) + (buf.s2 : Int)⟩

/-- A 1x1x2-volume chunk grid used to exercise `__load_chunks` directly. -/
def fsC2 : FS := fsOfList [((0,0,0), bufOfFn 1 1 1 (fun _ _ _ => 1)),
                           ((0,0,1), bufOfFn 1 1 1 (fun _ _ _ => 2))]

/-- An alignment state with a pending stitch along axis 0 (the Z axis of
the ZYX buffers): `chunks_needed[2]` is set. -/
def stC2 : CSt :=
  { vi := { chunk_size_in := ⟨1,1,1⟩, volume_dim := ⟨2,1,1⟩,
            chunk_size_out := ⟨2,1,1⟩, elements_to_read := ⟨2,1,1⟩ },
    ci := { chunk_index := ⟨1,1,1⟩, start_element := ⟨0,0,0⟩,
            end_element := ⟨1,1,1⟩, stitch := ⟨1,0,0⟩,
            chunks_needed := ⟨false,false,true,false⟩ },
    data0 := emptyData, data1 := emptyData, data2 := emptyData, data3 := emptyData,
    evs := [], outs := [] }

/-- The chunk grid of the C5 analysis: one file at XYZ index `(1,2,3)` with
ZYX shape `(4,5,6)`. -/
def fsC5 : FS := fsOfList [((1,2,3), bufOfFn 4 5 6 (fun _ _ _ => 0))]

/-- `__load_chunks` on `stC2`: the current chunk and the `z+1` neighbour
are loaded, and `chunk_index` is back at its entry value. -/
def stC2out : CSt :=
  { stC2 with
    data0 := bufOfFn 1 1 1 (fun _ _ _ => 1),
    data2 := bufOfFn 1 1 1 (fun _ _ _ => 2),
    evs := [.readEv (0, 0, 0), .readEv (0, 0, 1)] }

/-- A pure `Except` computation that never produces the configuration
`ValueError` (`PyErr.configError`): the numpy slice/assignment layer and the
range helper only raise other exception classes. -/
def exceptNoCfg (x : Except PyErr α) : Prop :=
  ∀ e : PyErr, x = .error e → e ≠ .configError

/-- A stateful computation that never raises the configuration error. -/
def PM.noCfg (m : PM α) : Prop :=
  ∀ (s s1 : CSt) (e : PyErr), m s = .err e s1 → e ≠ .configError

/-- Closed form for the start of thread `i` of one `__launch_threads` band
starting at `g` with `slices_per_thread = spt` and `remainder = rem`
(thread 0 starts at `g`; the extra slices go to threads `1 .. rem`). -/
def bandStart (g spt rem : Int) (i : Nat) : Int :=
  g + (i : Int) * spt + (if i = 0 then 0 else min ((i : Int) - 1) rem)

/-- Closed form for the end of thread `i` of one `__launch_threads` band. -/
def bandEnd (g spt rem : Int) (i : Nat) : Int :=
  g + ((i : Int) + 1) * spt + min (i : Int) rem

/-! ### Theorems -/

/-! #### Plumbing lemmas for stepping through recorded runs -/

theorem monadBind_def (m : PM α) (f : α → PM β) : m >>= f = PM.bind m f := rfl

theorem PM.pure_apply (a : α) (s : CSt) : PM.pure a s = PRes.ok a s := rfl

theorem PM.bind_apply_ok (m : PM α) (f : α → PM β) (s s1 : CSt) (a : α)
    (hm : m s = .ok a s1) : PM.bind m f s = f a s1 := by
  unfold PM.bind; rw [hm]

theorem PM.bind_apply_err (m : PM α) (f : α → PM β) (s s1 : CSt) (e : PyErr)
    (hm : m s = .err e s1) : PM.bind m f s = .err e s1 := by
  unfold PM.bind; rw [hm]

theorem PM.bind_assoc (m : PM α) (f : α → PM β) (g : β → PM γ) :
    PM.bind (PM.bind m f) g = PM.bind m (fun a => PM.bind (f a) g) := by
  funext s; unfold PM.bind; cases m s <;> rfl


theorem PM.bind_ok_elim {α β : Type} {m : PM α} {f : α → PM β} {s s2 : CSt} {b : β}
    (h : PM.bind m f s = .ok b s2) : ∃ a s1, m s = .ok a s1 ∧ f a s1 = .ok b s2 := by
  unfold PM.bind at h
  cases hm : m s with
  | ok a s1 => rw [hm] at h; exact ⟨a, s1, rfl, h⟩
  | err e s1 => rw [hm] at h; exact (PRes.noConfusion h)

theorem monadBind_ok_elim {α β : Type} {m : PM α} {f : α → PM β} {s s2 : CSt} {b : β}
    (h : (m >>= f) s = .ok b s2) : ∃ a s1, m s = .ok a s1 ∧ f a s1 = .ok b s2 :=
  PM.bind_ok_elim h

theorem PM.modify_apply (f : CSt → CSt) (s : CSt) : PM.modify f s = .ok () (f s) := rfl

theorem PM.get_apply (s : CSt) : PM.get s = .ok s s := rfl

theorem liftE_ok_elim {α : Type} {x : Except PyErr α} {s s1 : CSt} {a : α}
    (h : liftE x s = .ok a s1) : x = .ok a ∧ s1 = s := by
  unfold liftE at h
  cases x with
  | ok b => cases h; exact ⟨rfl, rfl⟩
  | error e => exact (PRes.noConfusion h)

theorem readVolumeM_ok_elim {fs : FS} {i : Int × Int × Int} {s s1 : CSt} {b : Buf}
    (h : readVolumeM fs i s = .ok b s1) :
    fs i = some b ∧ s1 = { s with evs := s.evs ++ [.readEv i] } := by
  unfold readVolumeM at h
  cases hf : fs i with
  | some b0 => rw [hf] at h; cases h; exact ⟨rfl, rfl⟩
  | none => rw [hf] at h; exact (PRes.noConfusion h)

theorem readTmpChunkZy_ok_elim {fs : FS} {s s1 : CSt} {b : Buf}
    (h : readTmpChunkZy fs s = .ok b s1) :
    s1 = { s with evs := s.evs ++ [.readEv (fileIndexOf s.ci.chunk_index)] } := by
  unfold readTmpChunkZy at h
  simp only [monadBind_def] at h
  obtain ⟨s0, sA, hget, h⟩ := PM.bind_ok_elim h
  cases hget
  obtain ⟨b0, sB, hread, h⟩ := PM.bind_ok_elim h
  obtain ⟨hfs, rfl⟩ := readVolumeM_ok_elim hread
  obtain ⟨hx, rfl⟩ := liftE_ok_elim h
  rfl

theorem loadNextChunk_ok_elim {fs : FS} {dim : Nat} {s s1 : CSt} {b : Buf}
    (h : loadNextChunk fs dim s = .ok b s1) :
    s1 = { s with evs := s.evs ++
      [.readEv (fileIndexOf (s.ci.chunk_index.set dim (s.ci.chunk_index.get dim + 1)))] } := by
  unfold loadNextChunk at h
  simp only [monadBind_def] at h
  obtain ⟨s0, sA, hget, h⟩ := PM.bind_ok_elim h
  cases hget
  split at h
  · obtain ⟨u, sB, hmod, h⟩ := PM.bind_ok_elim h
    cases hmod
    obtain ⟨b0, sC, hread, h⟩ := PM.bind_ok_elim h
    have hq := readTmpChunkZy_ok_elim hread
    subst hq
    obtain ⟨u2, sD, hmod2, h⟩ := PM.bind_ok_elim h
    cases hmod2
    cases h
    rfl
  · exact (PRes.noConfusion h)

theorem loadChunksD0_ok_elim {fs : FS} {s s1 : CSt}
    (h : loadChunksD0 fs s = .ok () s1) :
    s1.ci = s.ci ∧ s1.vi = s.vi ∧ s1.outs = s.outs ∧
    s1.evs = s.evs ++ [.readEv (fileIndexOf s.ci.chunk_index)] := by
  unfold loadChunksD0 loadCurrentChunk at h
  simp only [monadBind_def] at h
  obtain ⟨b0, sA, hread, h⟩ := PM.bind_ok_elim h
  have hq := readTmpChunkZy_ok_elim hread
  subst hq
  cases h
  exact ⟨rfl, rfl, rfl, rfl⟩

theorem loadChunksD1_ok_elim {fs : FS} {s s1 : CSt}
    (h : loadChunksD1 fs s = .ok () s1) :
    s1.ci = s.ci ∧ s1.vi = s.vi ∧ s1.outs = s.outs ∧
    s1.evs = s.evs ++ (if s.ci.chunks_needed.n1 then
      [.readEv (fileIndexOf (s.ci.chunk_index.set 1 (s.ci.chunk_index.get 1 + 1)))]
      else []) := by
  unfold loadChunksD1 at h
  simp only [monadBind_def] at h
  obtain ⟨s0, sA, hget, h⟩ := PM.bind_ok_elim h
  cases hget
  split at h
  case isTrue hc =>
    obtain ⟨b1, sB, hnext, h⟩ := PM.bind_ok_elim h
    have hq := loadNextChunk_ok_elim hnext
    subst hq
    cases h
    refine ⟨rfl, rfl, rfl, ?_⟩
    simp [hc]
  case isFalse hc =>
    cases h
    refine ⟨rfl, rfl, rfl, ?_⟩
    simp only [Bool.not_eq_true] at hc
    simp [hc]

theorem loadChunksD2_ok_elim {fs : FS} {s s1 : CSt}
    (h : loadChunksD2 fs s = .ok () s1) :
    s1.ci = s.ci ∧ s1.vi = s.vi ∧ s1.outs = s.outs ∧
    s1.evs = s.evs ++ (if s.ci.chunks_needed.n2 then
      [.readEv (fileIndexOf (s.ci.chunk_index.set 0 (s.ci.chunk_index.get 0 + 1)))]
      else []) := by
  unfold loadChunksD2 at h
  simp only [monadBind_def] at h
  obtain ⟨s0, sA, hget, h⟩ := PM.bind_ok_elim h
  cases hget
  split at h
  case isTrue hc =>
    obtain ⟨b2, sB, hnext, h⟩ := PM.bind_ok_elim h
    have hq := loadNextChunk_ok_elim hnext
    subst hq
    cases h
    refine ⟨rfl, rfl, rfl, ?_⟩
    simp [hc]
  case isFalse hc =>
    cases h
    refine ⟨rfl, rfl, rfl, ?_⟩
    simp only [Bool.not_eq_true] at hc
    simp [hc]

theorem loadChunksD3_ok_elim {fs : FS} {s s1 : CSt}
    (h : loadChunksD3 fs s = .ok () s1) :
    s1.ci = s.ci ∧ s1.vi = s.vi ∧ s1.outs = s.outs ∧
    s1.evs = s.evs ++ (if s.ci.chunks_needed.n3 then
      [.readEv (fileIndexOf ((s.ci.chunk_index.set 0 (s.ci.chunk_index.v0 + 1)).set 1
        (s.ci.chunk_index.v1 + 1)))] else []) := by
  unfold loadChunksD3 loadCurrentChunk at h
  simp only [monadBind_def] at h
  obtain ⟨s0, sA, hget, h⟩ := PM.bind_ok_elim h
  cases hget
  split at h
  case isTrue hc =>
    obtain ⟨u, sB, hmod, h⟩ := PM.bind_ok_elim h
    cases hmod
    obtain ⟨b3, sC, hread, h⟩ := PM.bind_ok_elim h
    have hq := readTmpChunkZy_ok_elim hread
    subst hq
    obtain ⟨u2, sD, hmod2, h⟩ := PM.bind_ok_elim h
    cases hmod2
    cases h
    refine ⟨rfl, rfl, rfl, ?_⟩
    simp [hc]
  case isFalse hc =>
    cases h
    refine ⟨rfl, rfl, rfl, ?_⟩
    simp only [Bool.not_eq_true] at hc
    simp [hc]

/-- What one `__load_chunks` call does to everything except the `data`
buffers: the two dictionaries and the written files are untouched (in
particular `chunk_index` is restored), and exactly the reads described by
`loadChunksReads` are performed, in order. -/
theorem loadChunks_ok_elim {fs : FS} {s s1 : CSt}
    (h : loadChunks fs s = .ok () s1) :
    s1.ci = s.ci ∧ s1.vi = s.vi ∧ s1.outs = s.outs ∧
    s1.evs = s.evs ++ loadChunksReads s.ci := by
  unfold loadChunks at h
  simp only [monadBind_def] at h
  obtain ⟨u0, sA, h0, h⟩ := PM.bind_ok_elim h
  obtain ⟨u1, sB, h1, h⟩ := PM.bind_ok_elim h
  obtain ⟨u2, sC, h2, h3⟩ := PM.bind_ok_elim h
  obtain ⟨c0, v0, o0, e0⟩ := loadChunksD0_ok_elim h0
  obtain ⟨c1, v1, o1, e1⟩ := loadChunksD1_ok_elim h1
  obtain ⟨c2, v2, o2, e2⟩ := loadChunksD2_ok_elim h2
  obtain ⟨c3, v3, o3, e3⟩ := loadChunksD3_ok_elim h3
  have hciA : sA.ci = s.ci := c0
  have hciB : sB.ci = s.ci := c1.trans c0
  have hciC : sC.ci = s.ci := c2.trans hciB
  refine ⟨c3.trans hciC, v3.trans (v2.trans (v1.trans v0)),
    o3.trans (o2.trans (o1.trans o0)), ?_⟩
  rw [e3, hciC, e2, hciB, e1, hciA, e0]
  simp only [loadChunksReads, List.append_assoc]
/-! #### Fully evaluated conversion runs -/

/-- Full evaluation of the `C8` conversion run. -/
theorem run_C8 : convertChunkedVolume fsC8 (V3.mk 2 2 2) "x0y0z0" (V3.mk 2 2 2) 1 = PRes.ok () stC8_15 := by
  rw [convertChunkedVolume, convertChunkedVolumeM]
  simp only [monadBind_def]
  rw [PM.bind_apply_ok _ _ _ _ _ (by decide : (calculateVolumeDim fsC8 (V3.mk 2 2 2) "x0y0z0") initSt = PRes.ok (V3.mk 2 2 2) stC8_0)]
  try dsimp only []
  try dsimp only [V3.swap]
  rw [if_pos (show isVolumeConversionValid (V3.mk 2 2 2) (V3.mk 2 2 2) (V3.mk 2 2 2) = true from rfl)]
  rw [convertBody]
  simp only [monadBind_def, PM.bind_assoc]
  rw [PM.bind_apply_ok _ _ _ _ _ (by decide : (initDicts (V3.mk 2 2 2) (V3.mk 2 2 2) (V3.mk 2 2 2)) stC8_0 = PRes.ok () stC8_1)]
  try dsimp only []
  rw [PM.bind_apply_ok _ _ _ _ _ (by decide : (liftE (pyRange 2 2)) stC8_1 = PRes.ok [(0 : Int)] stC8_1)]
  try dsimp only []
  simp only [forList]
  rw [zStep]
  simp only [monadBind_def, PM.bind_assoc]
  try dsimp only []
  rw [PM.bind_apply_ok _ _ _ _ _ (by decide : (setIndexEnd 1) stC8_1 = PRes.ok () stC8_1)]
  try dsimp only []
  rw [PM.bind_apply_ok _ _ _ _ _ (by decide : (getIndices 0) stC8_1 = PRes.ok () stC8_4)]
  try dsimp only []
  rw [PM.bind_apply_ok _ _ _ _ _ (by decide : (markNeeded2IfStitch0) stC8_4 = PRes.ok () stC8_4)]
  try dsimp only []
  rw [PM.bind_apply_ok _ _ _ _ _ (by decide : (liftE (pyRange 2 2)) stC8_4 = PRes.ok [(0 : Int)] stC8_4)]
  try dsimp only []
  simp only [forList]
  rw [yStep]
  simp only [monadBind_def, PM.bind_assoc]
  try dsimp only []
  rw [PM.bind_apply_ok _ _ _ _ _ (by decide : (setIndexEnd 2) stC8_4 = PRes.ok () stC8_4)]
  try dsimp only []
  rw [PM.bind_apply_ok _ _ _ _ _ (by decide : (getIndices 1) stC8_4 = PRes.ok () stC8_8)]
  try dsimp only []
  rw [PM.bind_apply_ok _ _ _ _ _ (by decide : (markNeeded1IfStitch1) stC8_8 = PRes.ok () stC8_8)]
  try dsimp only []
  rw [PM.bind_apply_ok _ _ _ _ _ (by decide : (liftE (pyRange 2 2)) stC8_8 = PRes.ok [(0 : Int)] stC8_8)]
  try dsimp only []
  simp only [forList]
  simp only [monadBind_def, PM.bind_assoc]
  try dsimp only []
  rw [PM.bind_apply_ok _ _ _ _ _ (by decide : (xStep fsC8 (V3.mk 2 2 2) 1 0 0 0) stC8_8 = PRes.ok () stC8_11)]
  try dsimp only []
  rw [PM.bind_apply_ok _ _ _ _ _ (PM.pure_apply () stC8_11)]
  try dsimp only []
  rw [PM.bind_apply_ok _ _ _ _ _ (by decide : (updateAndResetParams 1 (V3.mk 2 2 2) (V3.mk 2 2 2)) stC8_11 = PRes.ok () stC8_13)]
  try dsimp only []
  rw [PM.bind_apply_ok _ _ _ _ _ (PM.pure_apply () stC8_13)]
  try dsimp only []
  rw [PM.bind_apply_ok _ _ _ _ _ (by decide : (updateAndResetParams 0 (V3.mk 2 2 2) (V3.mk 2 2 2)) stC8_13 = PRes.ok () stC8_15)]
  try dsimp only []
  try rfl

/-- Full evaluation of the `C1a` conversion run. -/
theorem run_C1a : convertChunkedVolume fsC1 (V3.mk 1 1 1) "x1y0z0" (V3.mk 2 1 1) 1 = PRes.ok () stC1a_15 := by
  rw [convertChunkedVolume, convertChunkedVolumeM]
  simp only [monadBind_def]
  rw [PM.bind_apply_ok _ _ _ _ _ (by decide : (calculateVolumeDim fsC1 (V3.mk 1 1 1) "x1y0z0") initSt = PRes.ok (V3.mk 2 1 1) stC1a_0)]
  try dsimp only []
  try dsimp only [V3.swap]
  rw [if_pos (show isVolumeConversionValid (V3.mk 1 1 1) (V3.mk 1 1 2) (V3.mk 1 1 2) = true from rfl)]
  rw [convertBody]
  simp only [monadBind_def, PM.bind_assoc]
  rw [PM.bind_apply_ok _ _ _ _ _ (by decide : (initDicts (V3.mk 1 1 1) (V3.mk 1 1 2) (V3.mk 1 1 2)) stC1a_0 = PRes.ok () stC1a_1)]
  try dsimp only []
  rw [PM.bind_apply_ok _ _ _ _ _ (by decide : (liftE (pyRange 1 1)) stC1a_1 = PRes.ok [(0 : Int)] stC1a_1)]
  try dsimp only []
  simp only [forList]
  rw [zStep]
  simp only [monadBind_def, PM.bind_assoc]
  try dsimp only []
  rw [PM.bind_apply_ok _ _ _ _ _ (by decide : (setIndexEnd 1) stC1a_1 = PRes.ok () stC1a_1)]
  try dsimp only []
  rw [PM.bind_apply_ok _ _ _ _ _ (by decide : (getIndices 0) stC1a_1 = PRes.ok () stC1a_4)]
  try dsimp only []
  rw [PM.bind_apply_ok _ _ _ _ _ (by decide : (markNeeded2IfStitch0) stC1a_4 = PRes.ok () stC1a_4)]
  try dsimp only []
  rw [PM.bind_apply_ok _ _ _ _ _ (by decide : (liftE (pyRange 1 1)) stC1a_4 = PRes.ok [(0 : Int)] stC1a_4)]
  try dsimp only []
  simp only [forList]
  rw [yStep]
  simp only [monadBind_def, PM.bind_assoc]
  try dsimp only []
  rw [PM.bind_apply_ok _ _ _ _ _ (by decide : (setIndexEnd 2) stC1a_4 = PRes.ok () stC1a_4)]
  try dsimp only []
  rw [PM.bind_apply_ok _ _ _ _ _ (by decide : (getIndices 1) stC1a_4 = PRes.ok () stC1a_8)]
  try dsimp only []
  rw [PM.bind_apply_ok _ _ _ _ _ (by decide : (markNeeded1IfStitch1) stC1a_8 = PRes.ok () stC1a_8)]
  try dsimp only []
  rw [PM.bind_apply_ok _ _ _ _ _ (by decide : (liftE (pyRange 2 2)) stC1a_8 = PRes.ok [(0 : Int)] stC1a_8)]
  try dsimp only []
  simp only [forList]
  simp only [monadBind_def, PM.bind_assoc]
  try dsimp only []
  rw [PM.bind_apply_ok _ _ _ _ _ (by decide : (xStep fsC1 (V3.mk 1 1 2) 1 0 0 0) stC1a_8 = PRes.ok () stC1a_11)]
  try dsimp only []
  rw [PM.bind_apply_ok _ _ _ _ _ (PM.pure_apply () stC1a_11)]
  try dsimp only []
  rw [PM.bind_apply_ok _ _ _ _ _ (by decide : (updateAndResetParams 1 (V3.mk 1 1 2) (V3.mk 1 1 2)) stC1a_11 = PRes.ok () stC1a_13)]
  try dsimp only []
  rw [PM.bind_apply_ok _ _ _ _ _ (PM.pure_apply () stC1a_13)]
  try dsimp only []
  rw [PM.bind_apply_ok _ _ _ _ _ (by decide : (updateAndResetParams 0 (V3.mk 1 1 2) (V3.mk 1 1 2)) stC1a_13 = PRes.ok () stC1a_15)]
  try dsimp only []
  try rfl

/-- Full evaluation of the `C1b` conversion run. -/
theorem run_C1b : convertChunkedVolume fsC1b (V3.mk 2 1 1) "x0y0z0" (V3.mk 1 1 1) 1 = PRes.err Volcanite.PyErr.runtimeError stC1b_11 := by
  rw [convertChunkedVolume, convertChunkedVolumeM]
  simp only [monadBind_def]
  rw [PM.bind_apply_ok _ _ _ _ _ (by decide : (calculateVolumeDim fsC1b (V3.mk 2 1 1) "x0y0z0") initSt = PRes.ok (V3.mk 2 1 1) stC8_0)]
  try dsimp only []
  try dsimp only [V3.swap]
  rw [if_pos (show isVolumeConversionValid (V3.mk 1 1 2) (V3.mk 1 1 1) (V3.mk 1 1 2) = true from rfl)]
  rw [convertBody]
  simp only [monadBind_def, PM.bind_assoc]
  rw [PM.bind_apply_ok _ _ _ _ _ (by decide : (initDicts (V3.mk 1 1 2) (V3.mk 1 1 2) (V3.mk 1 1 1)) stC8_0 = PRes.ok () stC1b_1)]
  try dsimp only []
  rw [PM.bind_apply_ok _ _ _ _ _ (by decide : (liftE (pyRange 1 1)) stC1b_1 = PRes.ok [(0 : Int)] stC1b_1)]
  try dsimp only []
  simp only [forList]
  rw [zStep]
  simp only [monadBind_def, PM.bind_assoc]
  try dsimp only []
  rw [PM.bind_apply_ok _ _ _ _ _ (by decide : (setIndexEnd 1) stC1b_1 = PRes.ok () stC1b_1)]
  try dsimp only []
  rw [PM.bind_apply_ok _ _ _ _ _ (by decide : (getIndices 0) stC1b_1 = PRes.ok () stC1b_4)]
  try dsimp only []
  rw [PM.bind_apply_ok _ _ _ _ _ (by decide : (markNeeded2IfStitch0) stC1b_4 = PRes.ok () stC1b_4)]
  try dsimp only []
  rw [PM.bind_apply_ok _ _ _ _ _ (by decide : (liftE (pyRange 1 1)) stC1b_4 = PRes.ok [(0 : Int)] stC1b_4)]
  try dsimp only []
  simp only [forList]
  rw [yStep]
  simp only [monadBind_def, PM.bind_assoc]
  try dsimp only []
  rw [PM.bind_apply_ok _ _ _ _ _ (by decide : (setIndexEnd 2) stC1b_4 = PRes.ok () stC1b_4)]
  try dsimp only []
  rw [PM.bind_apply_ok _ _ _ _ _ (by decide : (getIndices 1) stC1b_4 = PRes.ok () stC1b_8)]
  try dsimp only []
  rw [PM.bind_apply_ok _ _ _ _ _ (by decide : (markNeeded1IfStitch1) stC1b_8 = PRes.ok () stC1b_8)]
  try dsimp only []
  rw [PM.bind_apply_ok _ _ _ _ _ (by decide : (liftE (pyRange 2 1)) stC1b_8 = PRes.ok [(0 : Int), (1 : Int)] stC1b_8)]
  try dsimp only []
  simp only [forList]
  simp only [monadBind_def, PM.bind_assoc]
  try dsimp only []
  rw [PM.bind_apply_err _ _ _ _ _ (by decide : (xStep fsC1b (V3.mk 1 1 1) 1 0 0 0) stC1b_8 = PRes.err Volcanite.PyErr.runtimeError stC1b_11)]
  try rfl

/-- C8: rechunking from chunk size `A` to the same `A` is claimed to copy
every chunk byte-identically.  Evaluating the code on a single cubic
2x2x2 chunk with one marked voxel: the run succeeds, but the written chunk
is the `swapaxes(0, 2)` transpose of the input chunk (the voxel moves from
ZYX `(0,0,1)` to `(1,0,0)`), which is not equal to the input chunk.  The
code transposes the assembled ZYX buffer before `write_volume`, against the
ZYX contract stated in its own comments. -/
theorem C8_same_size_rechunk_writes_transposed_chunk :
    convertChunkedVolume fsC8 (V3.mk 2 2 2) "x0y0z0" (V3.mk 2 2 2) 1 = PRes.ok () stC8_15 ∧
    stC8_15.outs = [((0, 0, 0), swapaxes02 chunkC8)] ∧
    ¬ BufEq (swapaxes02 chunkC8) chunkC8 :=
  ⟨run_C8, by decide, by decide⟩

/-- C1: the round trip `A → B → A` is claimed to reproduce the volume for
every valid `B`.  Evaluating the code on a 1x1x2 volume with `A = (1,1,1)`
and the valid `B = (2,1,1)`: the first conversion succeeds but writes its
single output chunk axis-swapped (shape `(2,1,1)` instead of `(1,1,2)`),
and the conversion back from `B` to `A` then crashes with a numpy shape
mismatch while reading that chunk, so no round trip exists. -/
theorem C1_roundtrip_crashes_on_transposed_chunks :
    convertChunkedVolume fsC1 (V3.mk 1 1 1) "x1y0z0" (V3.mk 2 1 1) 1 = PRes.ok () stC1a_15 ∧
    fsC1b = fsOfList stC1a_15.outs ∧
    stC1a_15.outs.map (fun p => (p.1, p.2.s0, p.2.s1, p.2.s2)) = [((0, 0, 0), 2, 1, 1)] ∧
    convertChunkedVolume fsC1b (V3.mk 2 1 1) "x0y0z0" (V3.mk 1 1 1) 1 =
      PRes.err PyErr.runtimeError stC1b_11 :=
  ⟨run_C1a, rfl, by decide, run_C1b⟩

/-- C2, counterexample: with a pending stitch along buffer axis 0,
`__load_chunks` reads the input chunk at file index `(0, 0, 1)` — one step
along the Z axis of the chunk grid — which is not among the four neighbours
(current, `+1` in X, `+1` in Y, `+1` in both) that the claim allows the
fetcher to load. -/
theorem C2_fetcher_loads_z_neighbour :
    loadChunks fsC2 stC2 = PRes.ok () stC2out ∧
    stC2out.evs = [Ev.readEv (0, 0, 0), Ev.readEv (0, 0, 1)] ∧
    ((0, 0, 1) : Int × Int × Int) ∉ [((0, 0, 0) : Int × Int × Int), (1, 0, 0), (0, 1, 0), (1, 1, 0)] := by
  refine ⟨by decide, by decide, by decide⟩

/-- C4, counterexample: on an invalid configuration (output chunk 80 > 2*32
per axis, modelled as 5 > 2*2) the configuration error is raised, but only
after the last input chunk has already been read by
`__calculate_volume_dim` — the event log at the error is not empty. -/
theorem C4_read_precedes_validation :
    PRes.errOf (convertChunkedVolume fsC8 (V3.mk 2 2 2) "x0y0z0" (V3.mk 5 5 5) 16) =
      some PyErr.configError ∧
    PRes.events (convertChunkedVolume fsC8 (V3.mk 2 2 2) "x0y0z0" (V3.mk 5 5 5) 16) =
      [Ev.readEv (0, 0, 0)] ∧
    ([Ev.readEv (0, 0, 0)] : List Ev) ≠ [] := by
  refine ⟨by decide, by decide, by decide⟩

/-- C5, counterexample: `__calculate_volume_dim` with XYZ chunk size
`(10, 20, 30)`, last chunk `x1y2z3.h5` and a loaded ZYX shape `(4, 5, 6)`
returns `(10*1+4, 20*2+5, 30*3+6) = (14, 45, 96)`, pairing each component
of the XYZ-ordered size and filename index with the same-position
component of the ZYX-ordered shape — not the ZYX-ordered triple
`(30*3+4, 20*2+5, 10*1+6) = (94, 45, 16)` stated by the claim. -/
theorem C5_result_is_not_zyx_ordered :
    PRes.valOf (calculateVolumeDim fsC5 (V3.mk 10 20 30) "x1y2z3.h5" initSt) =
      some (V3.mk 14 45 96) ∧
    specVolumeDimZYX (V3.mk 10 20 30) 1 2 3 (bufOfFn 4 5 6 (fun _ _ _ => 0)) =
      V3.mk 94 45 16 ∧
    V3.mk 14 45 96 ≠ V3.mk 94 45 16 := by
  refine ⟨by decide, by decide, by decide⟩

/-- C6, counterexample: a band of 5 slices over 3 threads
(`slices_per_thread = 5 // 3 = 1`, remainder 2) is split by
`__launch_threads` into ranges of lengths `1, 2, 2`: the extra slices go
to threads 1 and 2, not to the first two threads as the claim states
(which would give lengths `2, 2, 1`). -/
theorem C6_remainder_goes_to_later_threads :
    (launchRanges 0 5 ((5 : Int) / 3) 3).map (fun p => p.2 - p.1) = [1, 2, 2] ∧
    ([1, 2, 2] : List Int) ≠ [2, 2, 1] := by
  refine ⟨by decide, by decide⟩

/-- C9: `write_chunked_volume` raises for every `path_out_format` whose
python format key count differs from exactly one, before writing any chunk
file; in particular the three-key `x{}y{}z{}` pattern required by its own
docstring has key count 3 and always raises. -/
theorem C9_write_chunked_volume_requires_one_key :
    (∀ (volume : Buf) (fmt : String) (cs : V3), getFormatKeyCount fmt ≠ some 1 →
      writeChunkedVolume volume fmt cs = Except.error PyErr.exception) ∧
    getFormatKeyCount "my_volume_x\x7b\x7dy\x7b\x7dz\x7b\x7d.raw" = some 3 := by
  constructor
  · intro volume fmt cs h
    unfold writeChunkedVolume
    rw [if_pos h]
    rfl
  · decide

/-- C10: every normally-returning `__load_chunks` call leaves
`chunk_index` at its entry value: the neighbour loads advance it only
temporarily and restore it before returning. -/
theorem C10_load_chunks_preserves_chunk_index :
    ∀ (fs : FS) (s s1 : CSt), loadChunks fs s = PRes.ok () s1 →
      s1.ci.chunk_index = s.ci.chunk_index := by
  intro fs s s1 h
  rw [(loadChunks_ok_elim h).1]

/-- C10, witness: a run with a pending axis-0 stitch loads two chunks and
returns with the entry `chunk_index`. -/
theorem C10_load_chunks_preserves_chunk_index_witness :
    loadChunks fsC2 stC2 = PRes.ok () stC2out ∧
    stC2out.ci.chunk_index = stC2.ci.chunk_index :=
  ⟨by decide, C10_load_chunks_preserves_chunk_index fsC2 stC2 stC2out (by decide)⟩

/-- `__get_indices` is a pure dictionary update: no I/O, no file output. -/
theorem getIndices_state (dim : Nat) (s : CSt) :
    ∃ s1, getIndices dim s = PRes.ok () s1 ∧ s1.evs = s.evs ∧ s1.outs = s.outs := by
  refine ⟨_, rfl, ?_, ?_⟩ <;>
    · dsimp only []
      split <;> rfl

/-- Marking `chunks_needed[3]` is a pure dictionary update. -/
theorem markNeeded3IfBoth_state (s : CSt) :
    ∃ s1, markNeeded3IfBoth s = PRes.ok () s1 ∧ s1.evs = s.evs ∧ s1.outs = s.outs := by
  refine ⟨_, rfl, ?_, ?_⟩ <;>
    · dsimp only []
      split <;> rfl

/-- C2 (amended): the Chunk Fetcher (`__load_chunks`) performs exactly the
reads of `loadChunksReads` — the current chunk and, as needed, the `+1 in
Y`, `+1 in Z` and diagonal `Y/Z` neighbours, never a neighbour along X —
while the Coordinator handles the X axis inside each `xStep`: a first
compositor pass over the slices available from the current X input chunk
and, exactly when `min(Cin_x - start_x, Cout_x) <` the effective output
X extent, a second fetch at `chunk_index[2] + 1` followed by the second
pass, before the single chunk write. -/
theorem C2_fetcher_yz_coordinator_x :
    (∀ (fs : FS) (s s1 : CSt), loadChunks fs s = PRes.ok () s1 →
      s1.evs = s.evs ++ loadChunksReads s.ci) ∧
    (∀ (ci : ChunkInfo) (e : Ev), e ∈ loadChunksReads ci →
      ∃ dy dz : Int, (dy = 0 ∨ dy = 1) ∧ (dz = 0 ∨ dz = 1) ∧
        e = .readEv (ci.chunk_index.v2 - 1, ci.chunk_index.v1 - 1 + dy,
          ci.chunk_index.v0 - 1 + dz)) ∧
    (∀ (fs : FS) (cso : V3) (tc : Nat) (z y x : Int) (s s1 : CSt),
      xStep fs cso tc z y x s = PRes.ok () s1 →
      ∃ sA : CSt, PM.bind (getIndices 2) (fun _ => markNeeded3IfBoth) s = PRes.ok () sA ∧
        sA.evs = s.evs ∧
        s1.evs = s.evs ++ loadChunksReads sA.ci ++
          (if min (sA.vi.chunk_size_in.v2 - sA.ci.start_element.v2) cso.v2 <
              sA.vi.chunk_size_out.v2 then
            loadChunksReads { sA.ci with
              chunk_index := sA.ci.chunk_index.set 2 (sA.ci.chunk_index.v2 + 1) }
          else []) ++
          [.writeEv (Int.fdiv x cso.v2, Int.fdiv y cso.v1, Int.fdiv z cso.v0)]) := by
  refine ⟨fun fs s s1 h => (loadChunks_ok_elim h).2.2.2, ?_, ?_⟩
  · intro ci e he
    simp only [loadChunksReads, List.mem_append, List.mem_singleton] at he
    rcases he with ((he | he) | he) | he
    · refine ⟨0, 0, Or.inl rfl, Or.inl rfl, ?_⟩
      subst he
      simp only [fileIndexOf, V3.set, V3.get, Ev.readEv.injEq, Prod.mk.injEq,
        true_and, and_true, add_zero]
      try omega
    · rcases Bool.eq_false_or_eq_true ci.chunks_needed.n1 with hb | hb <;> simp [hb] at he
      refine ⟨1, 0, Or.inr rfl, Or.inl rfl, ?_⟩
      subst he
      simp only [fileIndexOf, V3.set, V3.get, Ev.readEv.injEq, Prod.mk.injEq,
        true_and, and_true, add_zero]
      try omega
    · rcases Bool.eq_false_or_eq_true ci.chunks_needed.n2 with hb | hb <;> simp [hb] at he
      refine ⟨0, 1, Or.inl rfl, Or.inr rfl, ?_⟩
      subst he
      simp only [fileIndexOf, V3.set, V3.get, Ev.readEv.injEq, Prod.mk.injEq,
        true_and, and_true, add_zero]
      try omega
    · rcases Bool.eq_false_or_eq_true ci.chunks_needed.n3 with hb | hb <;> simp [hb] at he
      refine ⟨1, 1, Or.inr rfl, Or.inr rfl, ?_⟩
      subst he
      simp only [fileIndexOf, V3.set, V3.get, Ev.readEv.injEq, Prod.mk.injEq,
        true_and, and_true, add_zero]
      try omega
  · intro fs cso tc z y x s s1 h
    unfold xStep at h
    simp only [monadBind_def] at h
    obtain ⟨u0, sG, hgi, h⟩ := PM.bind_ok_elim h
    obtain ⟨u1, sA, hmk, h⟩ := PM.bind_ok_elim h
    obtain ⟨sG1, hg, hge, _hgo⟩ := getIndices_state 2 s
    rw [hg] at hgi
    injection hgi with hu0 hsG
    subst hsG
    obtain ⟨sA1, hm, hme, _hmo⟩ := markNeeded3IfBoth_state sG1
    rw [hm] at hmk
    injection hmk with hu1 hsA
    subst hsA
    have hevA : sA1.evs = s.evs := hme.trans hge
    refine ⟨sA1, ?_, hevA, ?_⟩
    · rw [PM.bind_apply_ok _ _ _ _ _ hg]
      exact hm
    · obtain ⟨u2, sB, hload, h⟩ := PM.bind_ok_elim h
      obtain ⟨cB, vB, _oB, eB⟩ := loadChunks_ok_elim hload
      obtain ⟨sB2, sB3, hget, h⟩ := PM.bind_ok_elim h
      cases hget
      obtain ⟨stit1, sC, hl1, h⟩ := PM.bind_ok_elim h
      obtain ⟨hx1, rfl⟩ := liftE_ok_elim hl1
      obtain ⟨sC2, sC3, hget2, h⟩ := PM.bind_ok_elim h
      cases hget2
      rw [cB, vB] at h
      split at h
      case isTrue hcond =>
        obtain ⟨u4, sP, hmod, h⟩ := PM.bind_ok_elim h
        cases hmod
        obtain ⟨u5, sQ, hload2, h⟩ := PM.bind_ok_elim h
        obtain ⟨cQ, _vQ, _oQ, eQ⟩ := loadChunks_ok_elim hload2
        obtain ⟨sQ2, sQ3, hget3, h⟩ := PM.bind_ok_elim h
        cases hget3
        obtain ⟨stit2, sR, hl2, h⟩ := PM.bind_ok_elim h
        obtain ⟨hx2, hsR⟩ := liftE_ok_elim hl2
        obtain ⟨u3, sE, hwrite, h⟩ := PM.bind_ok_elim h
        cases hwrite
        cases h
        rw [if_pos hcond]
        dsimp only [] at eQ ⊢
        rw [hsR, eQ]
        try dsimp only []
        rw [eB, hevA, cB]
        try simp only [List.append_assoc]
      case isFalse hcond =>
        obtain ⟨stit2, sD, hpure, h⟩ := PM.bind_ok_elim h
        cases hpure
        obtain ⟨u3, sE, hwrite, h⟩ := PM.bind_ok_elim h
        cases hwrite
        cases h
        rw [if_neg hcond]
        dsimp only []
        rw [eB, hevA]
        simp only [List.append_assoc, List.append_nil]

/-- C2 (amended), witness: the Fetcher run `stC2` reads exactly its two
chunks, its first read is a `Y`/`Z`-neighbour offset of the current index,
and a concrete `xStep` run decomposes into dictionary updates, the fetch,
the compositor passes and the single write. -/
theorem C2_fetcher_yz_coordinator_x_witness :
    (stC2out.evs = stC2.evs ++ loadChunksReads stC2.ci) ∧
    (∃ dy dz : Int, (dy = 0 ∨ dy = 1) ∧ (dz = 0 ∨ dz = 1) ∧
      Ev.readEv (0, 0, 0) = .readEv (stC2.ci.chunk_index.v2 - 1,
        stC2.ci.chunk_index.v1 - 1 + dy, stC2.ci.chunk_index.v0 - 1 + dz)) ∧
    (∃ sA : CSt, PM.bind (getIndices 2) (fun _ => markNeeded3IfBoth) stC8_8 =
        PRes.ok () sA ∧
      sA.evs = stC8_8.evs ∧
      stC8_11.evs = stC8_8.evs ++ loadChunksReads sA.ci ++
        (if min (sA.vi.chunk_size_in.v2 - sA.ci.start_element.v2) (V3.mk 2 2 2).v2 <
            sA.vi.chunk_size_out.v2 then
          loadChunksReads { sA.ci with
            chunk_index := sA.ci.chunk_index.set 2 (sA.ci.chunk_index.v2 + 1) }
        else []) ++
        [.writeEv (Int.fdiv 0 (V3.mk 2 2 2).v2, Int.fdiv 0 (V3.mk 2 2 2).v1,
          Int.fdiv 0 (V3.mk 2 2 2).v0)]) :=
  ⟨C2_fetcher_yz_coordinator_x.1 fsC2 stC2 stC2out (by decide),
   C2_fetcher_yz_coordinator_x.2.1 stC2.ci (.readEv (0, 0, 0)) (by decide),
   C2_fetcher_yz_coordinator_x.2.2 fsC8 (V3.mk 2 2 2) 1 0 0 0 stC8_8 stC8_11 (by decide)⟩

/-- C9, witness: the documented three-key format raises. -/
theorem C9_write_chunked_volume_requires_one_key_witness :
    writeChunkedVolume (bufOfFn 1 1 1 (fun _ _ _ => 0))
      "my_volume_x\x7b\x7dy\x7b\x7dz\x7b\x7d.raw" (V3.mk 1 1 1) =
      Except.error PyErr.exception :=
  C9_write_chunked_volume_requires_one_key.1 _ _ _ (by decide)

/-- Running `__calculate_volume_dim` on a parseable filename whose chunk
file exists: a single read of that file, then the arithmetic result. -/
theorem calculateVolumeDim_run (fs : FS) (csi : V3) (lc : String) (a b c : Nat)
    (buf : Buf) (s : CSt) (hp : parseChunkIndices lc = [a, b, c])
    (hf : fs ((a : Int), (b : Int), (c : Int)) = some buf) :
    calculateVolumeDim fs csi lc s =
      PRes.ok (volumeDimFrom csi a b c buf)
        { s with evs := s.evs ++ [.readEv ((a : Int), (b : Int), (c : Int))] } := by
  have h1 : calculateVolumeDim fs csi lc = (do
      let bf ← readVolumeM fs ((a : Int), (b : Int), (c : Int))
      pure (volumeDimFrom csi a b c bf)) := by
    unfold calculateVolumeDim
    rw [hp]
  rw [h1]
  simp only [monadBind_def]
  rw [PM.bind_apply_ok _ _ _ _ _
    (show readVolumeM fs ((a : Int), (b : Int), (c : Int)) s =
        PRes.ok buf { s with evs := s.evs ++ [.readEv ((a : Int), (b : Int), (c : Int))] } by
      unfold readVolumeM
      rw [hf])]
  rfl

/-- The prefix of `convert_chunked_volume` up to and including the
validation branch: one read of the last chunk, then either the sweep or the
configuration error. -/
theorem convert_run_to_validation (fs : FS) (csi cso : V3) (lc : String) (tc : Nat)
    (a b c : Nat) (buf : Buf) (hp : parseChunkIndices lc = [a, b, c])
    (hf : fs ((a : Int), (b : Int), (c : Int)) = some buf) :
    convertChunkedVolume fs csi lc cso tc =
      (if isVolumeConversionValid csi.swap cso.swap (volumeDimFrom csi a b c buf).swap then
        convertBody fs csi.swap (volumeDimFrom csi a b c buf).swap cso.swap tc
      else PM.throw .configError)
      { initSt with evs := [.readEv ((a : Int), (b : Int), (c : Int))] } := by
  unfold convertChunkedVolume convertChunkedVolumeM
  simp only [monadBind_def]
  rw [PM.bind_apply_ok _ _ _ _ _ (calculateVolumeDim_run fs csi lc a b c buf initSt hp hf)]
  rfl

/-- C4 (amended): with an invalid configuration the run raises the
configuration error having written no chunk file, the single read of the
last input chunk being the only I/O preceding validation. -/
theorem C4_invalid_config_raises_after_one_read :
    ∀ (fs : FS) (csi cso : V3) (lc : String) (tc : Nat) (a b c : Nat) (buf : Buf),
      parseChunkIndices lc = [a, b, c] →
      fs ((a : Int), (b : Int), (c : Int)) = some buf →
      isVolumeConversionValid csi.swap cso.swap (volumeDimFrom csi a b c buf).swap = false →
      ∃ s1 : CSt, convertChunkedVolume fs csi lc cso tc = PRes.err PyErr.configError s1 ∧
        s1.evs = [.readEv ((a : Int), (b : Int), (c : Int))] ∧ s1.outs = [] := by
  intro fs csi cso lc tc a b c buf hp hf hinv
  refine ⟨{ initSt with evs := [.readEv ((a : Int), (b : Int), (c : Int))] }, ?_, rfl, rfl⟩
  rw [convert_run_to_validation fs csi cso lc tc a b c buf hp hf, if_neg (by simp [hinv])]
  rfl

/-- C4 (amended), witness: an 80-wide output chunk on a 5x7x9 volume. -/
theorem C4_invalid_config_raises_after_one_read_witness :
    parseChunkIndices "x1y2z3.raw" = [1, 2, 3] ∧
    ∃ s1 : CSt, convertChunkedVolume fsC5 (V3.mk 1 1 1) "x1y2z3.raw" (V3.mk 100 1 1) 1 =
        PRes.err PyErr.configError s1 ∧
      s1.evs = [.readEv (1, 2, 3)] ∧ s1.outs = [] :=
  ⟨by decide, C4_invalid_config_raises_after_one_read fsC5 (V3.mk 1 1 1) (V3.mk 100 1 1)
    "x1y2z3.raw" 1 1 2 3 (bufOfFn 4 5 6 (fun _ _ _ => 0)) (by decide) (by decide) (by decide)⟩

/-- C5 (amended): `__calculate_volume_dim` reads the last chunk once and
multiplies the XYZ-ordered `chunk_size_in` argument with the XYZ-ordered
filename indices, then adds the ZYX-ordered numpy shape of the loaded
chunk, componentwise in that mixed order. -/
theorem C5_volume_dim_mixes_xyz_grid_with_zyx_shape :
    ∀ (fs : FS) (csi : V3) (lc : String) (a b c : Nat) (buf : Buf) (s : CSt),
      parseChunkIndices lc = [a, b, c] →
      fs ((a : Int), (b : Int), (c : Int)) = some buf →
      calculateVolumeDim fs csi lc s =
        PRes.ok (volumeDimFrom csi a b c buf)
          { s with evs := s.evs ++ [.readEv ((a : Int), (b : Int), (c : Int))] } ∧
      volumeDimFrom csi a b c buf =
        V3.mk (csi.v0 * (a : Int) + (buf.s0 : Int)) (csi.v1 * (b : Int) + (buf.s1 : Int))
          (csi.v2 * (c : Int) + (buf.s2 : Int)) := by
  intro fs csi lc a b c buf s hp hf
  exact ⟨calculateVolumeDim_run fs csi lc a b c buf s hp hf, rfl⟩

/-- C5 (amended), witness: chunk grid index `(1,2,3)`, chunk shape
`(4,5,6)` in ZYX; the X chunk size multiplies the x index but receives the
Z extent. -/
theorem C5_volume_dim_mixes_xyz_grid_with_zyx_shape_witness :
    calculateVolumeDim fsC5 (V3.mk 10 20 30) "x1y2z3.raw" initSt =
      PRes.ok (volumeDimFrom (V3.mk 10 20 30) 1 2 3 (bufOfFn 4 5 6 (fun _ _ _ => 0)))
        { initSt with evs := initSt.evs ++ [.readEv (1, 2, 3)] } ∧
    volumeDimFrom (V3.mk 10 20 30) 1 2 3 (bufOfFn 4 5 6 (fun _ _ _ => 0)) =
      V3.mk ((V3.mk 10 20 30).v0 * ((1 : Nat) : Int) + ((bufOfFn 4 5 6 (fun _ _ _ => 0)).s0 : Int))
        ((V3.mk 10 20 30).v1 * ((2 : Nat) : Int) + ((bufOfFn 4 5 6 (fun _ _ _ => 0)).s1 : Int))
        ((V3.mk 10 20 30).v2 * ((3 : Nat) : Int) + ((bufOfFn 4 5 6 (fun _ _ _ => 0)).s2 : Int)) :=
  C5_volume_dim_mixes_xyz_grid_with_zyx_shape fsC5 (V3.mk 10 20 30) "x1y2z3.raw" 1 2 3
    (bufOfFn 4 5 6 (fun _ _ _ => 0)) initSt (by decide) (by decide)

/-! #### The configuration error is only raised by the validation branch -/

theorem exceptNoCfg_ok (a : α) : exceptNoCfg (Except.ok a : Except PyErr α) :=
  fun _ he => Except.noConfusion he

theorem exceptNoCfg_bind {x : Except PyErr α} {f : α → Except PyErr β}
    (hx : exceptNoCfg x) (hf : ∀ a, exceptNoCfg (f a)) : exceptNoCfg (x >>= f) := by
  intro e he
  cases x with
  | ok a => exact hf a e he
  | error e1 =>
    cases he
    exact hx _ rfl

theorem exceptNoCfg_assignFull3 (dst src : Buf) : exceptNoCfg (assignFull3 dst src) := by
  intro e he
  unfold assignFull3 at he
  split at he
  · exact Except.noConfusion he
  · cases he
    decide

theorem exceptNoCfg_slice2 (b : Buf) (lo0 hi0 lo1 hi1 idx : Int) :
    exceptNoCfg (slice2 b lo0 hi0 lo1 hi1 idx) := by
  intro e he
  unfold slice2 at he
  split at he
  · cases he
    decide
  · exact Except.noConfusion he

theorem exceptNoCfg_assign2 (dst : Buf2) (lo0 hi0 lo1 hi1 : Int) (src : Buf2) :
    exceptNoCfg (assign2 dst lo0 hi0 lo1 hi1 src) := by
  intro e he
  unfold assign2 at he
  dsimp only [] at he
  split at he
  · exact Except.noConfusion he
  · cases he
    decide

theorem exceptNoCfg_assignDim2 (dst : Buf) (lo hi : Int) (src : Buf) :
    exceptNoCfg (assignDim2 dst lo hi src) := by
  intro e he
  unfold assignDim2 at he
  dsimp only [] at he
  split at he
  · exact Except.noConfusion he
  · cases he
    decide

theorem exceptNoCfg_pyRange (stop step : Int) : exceptNoCfg (pyRange stop step) := by
  intro e he
  unfold pyRange at he
  split at he
  · cases he
    decide
  · split at he
    · exact Except.noConfusion he
    · split at he
      · exact Except.noConfusion he
      · exact Except.noConfusion he

theorem exceptNoCfg_getSliceZy (vi : VolInfo) (ci : ChunkInfo) (d0 d1 d2 d3 : Buf)
    (idx : Int) : exceptNoCfg (getSliceZy vi ci d0 d1 d2 d3 idx) := by
  unfold getSliceZy
  split
  · exact exceptNoCfg_bind (exceptNoCfg_slice2 _ _ _ _ _ _) fun _ =>
      exceptNoCfg_bind (exceptNoCfg_assign2 _ _ _ _ _ _) fun _ =>
      exceptNoCfg_bind (exceptNoCfg_slice2 _ _ _ _ _ _) fun _ =>
      exceptNoCfg_bind (exceptNoCfg_assign2 _ _ _ _ _ _) fun _ =>
      exceptNoCfg_bind (exceptNoCfg_slice2 _ _ _ _ _ _) fun _ =>
      exceptNoCfg_bind (exceptNoCfg_assign2 _ _ _ _ _ _) fun _ =>
      exceptNoCfg_bind (exceptNoCfg_slice2 _ _ _ _ _ _) fun _ =>
      exceptNoCfg_assign2 _ _ _ _ _ _
  · split
    · exact exceptNoCfg_bind (exceptNoCfg_slice2 _ _ _ _ _ _) fun _ =>
        exceptNoCfg_bind (exceptNoCfg_assign2 _ _ _ _ _ _) fun _ =>
        exceptNoCfg_bind (exceptNoCfg_slice2 _ _ _ _ _ _) fun _ =>
        exceptNoCfg_assign2 _ _ _ _ _ _
    · split
      · exact exceptNoCfg_bind (exceptNoCfg_slice2 _ _ _ _ _ _) fun _ =>
          exceptNoCfg_bind (exceptNoCfg_assign2 _ _ _ _ _ _) fun _ =>
          exceptNoCfg_bind (exceptNoCfg_slice2 _ _ _ _ _ _) fun _ =>
          exceptNoCfg_assign2 _ _ _ _ _ _
      · exact exceptNoCfg_bind (exceptNoCfg_slice2 _ _ _ _ _ _) fun _ =>
          exceptNoCfg_assign2 _ _ _ _ _ _

theorem exceptNoCfg_mapM (f : α → Except PyErr β) (hf : ∀ a, exceptNoCfg (f a)) :
    ∀ l : List α, exceptNoCfg (l.mapM f)
  | [] => by
      rw [List.mapM_nil]
      exact fun _ he => Except.noConfusion he
  | a :: r => by
      rw [List.mapM_cons]
      exact exceptNoCfg_bind (hf a) fun b =>
        exceptNoCfg_bind (exceptNoCfg_mapM f hf r) fun bs =>
        fun _ he => Except.noConfusion he

theorem exceptNoCfg_foldlM (f : β → α → Except PyErr β) (hf : ∀ b a, exceptNoCfg (f b a)) :
    ∀ (l : List α) (b : β), exceptNoCfg (l.foldlM f b)
  | [], _ => fun _ he => Except.noConfusion he
  | a :: r, b => by
      rw [List.foldlM_cons]
      exact exceptNoCfg_bind (hf b a) fun b1 => exceptNoCfg_foldlM f hf r b1

theorem exceptNoCfg_stitchZy (vi : VolInfo) (ci : ChunkInfo) (d0 d1 d2 d3 : Buf)
    (start end_ off : Int) (stitched : Buf) :
    exceptNoCfg (stitchZyChunksTogether vi ci d0 d1 d2 d3 start end_ off stitched) := by
  unfold stitchZyChunksTogether
  exact exceptNoCfg_bind
    (exceptNoCfg_mapM _ (fun sc => exceptNoCfg_getSliceZy _ _ _ _ _ _ _) _)
    fun slices => exceptNoCfg_assignDim2 _ _ _ _

theorem exceptNoCfg_launchThreads (vi : VolInfo) (ci : ChunkInfo) (d0 d1 d2 d3 : Buf)
    (off g e spt : Int) (tc : Nat) (stitched : Buf) :
    exceptNoCfg (launchThreads vi ci d0 d1 d2 d3 off g e spt tc stitched) := by
  unfold launchThreads
  exact exceptNoCfg_foldlM _ (fun b r => exceptNoCfg_stitchZy _ _ _ _ _ _ _ _ _ _) _ _

theorem PM.noCfg_pure (a : α) : PM.noCfg (PM.pure a) :=
  fun _ _ _ h => PRes.noConfusion h

theorem PM.noCfg_modify (f : CSt → CSt) : PM.noCfg (PM.modify f) :=
  fun _ _ _ h => PRes.noConfusion h

theorem PM.noCfg_get : PM.noCfg PM.get :=
  fun _ _ _ h => PRes.noConfusion h

theorem PM.noCfg_writeVolumeM (i : Int × Int × Int) (b : Buf) :
    PM.noCfg (writeVolumeM i b) :=
  fun _ _ _ h => PRes.noConfusion h

theorem PM.noCfg_bind {m : PM α} {f : α → PM β} (hm : m.noCfg) (hf : ∀ a, (f a).noCfg) :
    PM.noCfg (PM.bind m f) := by
  intro s s1 e h
  unfold PM.bind at h
  cases hms : m s with
  | ok a s2 =>
    rw [hms] at h
    exact hf a s2 s1 e h
  | err e2 s2 =>
    rw [hms] at h
    cases h
    exact hm s _ _ hms

theorem PM.noCfg_liftE {x : Except PyErr α} (hx : exceptNoCfg x) : PM.noCfg (liftE x) := by
  intro s s1 e h
  unfold liftE at h
  cases x with
  | ok a => exact PRes.noConfusion h
  | error e1 =>
    cases h
    exact hx _ rfl

theorem PM.noCfg_throwExc : PM.noCfg (PM.throw (α := α) .exception) := by
  intro s s1 e h
  cases h
  decide

theorem PM.noCfg_readVolumeM (fs : FS) (i : Int × Int × Int) :
    PM.noCfg (readVolumeM fs i) := by
  intro s s1 e h
  unfold readVolumeM at h
  split at h
  · exact PRes.noConfusion h
  · cases h
    decide

theorem PM.noCfg_forList {f : α → PM Unit} (hf : ∀ a, (f a).noCfg) :
    ∀ l : List α, PM.noCfg (forList l f)
  | [] => PM.noCfg_pure ()
  | a :: r => PM.noCfg_bind (hf a) fun _ => PM.noCfg_forList hf r

theorem PM.noCfg_readTmpChunkZy (fs : FS) : PM.noCfg (readTmpChunkZy fs) := by
  unfold readTmpChunkZy
  simp only [monadBind_def]
  exact PM.noCfg_bind PM.noCfg_get fun s =>
    PM.noCfg_bind (PM.noCfg_readVolumeM _ _) fun b =>
    PM.noCfg_liftE (exceptNoCfg_assignFull3 _ _)

theorem PM.noCfg_getIndices (dim : Nat) : PM.noCfg (getIndices dim) :=
  fun _ _ _ h => PRes.noConfusion h

theorem PM.noCfg_markNeeded3IfBoth : PM.noCfg markNeeded3IfBoth :=
  fun _ _ _ h => PRes.noConfusion h

theorem PM.noCfg_markNeeded2IfStitch0 : PM.noCfg markNeeded2IfStitch0 :=
  fun _ _ _ h => PRes.noConfusion h

theorem PM.noCfg_markNeeded1IfStitch1 : PM.noCfg markNeeded1IfStitch1 :=
  fun _ _ _ h => PRes.noConfusion h

theorem PM.noCfg_setIndexEnd (dim : Nat) : PM.noCfg (setIndexEnd dim) :=
  fun _ _ _ h => PRes.noConfusion h

theorem PM.noCfg_updateAndResetParams (dim : Nat) (cso vd : V3) :
    PM.noCfg (updateAndResetParams dim cso vd) :=
  fun _ _ _ h => PRes.noConfusion h

theorem PM.noCfg_initDicts (csi vd cso : V3) : PM.noCfg (initDicts csi vd cso) :=
  fun _ _ _ h => PRes.noConfusion h

theorem PM.noCfg_loadNextChunk (fs : FS) (dim : Nat) : PM.noCfg (loadNextChunk fs dim) := by
  unfold loadNextChunk
  simp only [monadBind_def]
  refine PM.noCfg_bind PM.noCfg_get fun s => ?_
  split
  · exact PM.noCfg_bind (PM.noCfg_modify _) fun _ =>
      PM.noCfg_bind (PM.noCfg_readTmpChunkZy _) fun b =>
      PM.noCfg_bind (PM.noCfg_modify _) fun _ => PM.noCfg_pure b
  · exact PM.noCfg_throwExc

theorem PM.noCfg_loadChunksD0 (fs : FS) : PM.noCfg (loadChunksD0 fs) := by
  unfold loadChunksD0 loadCurrentChunk
  simp only [monadBind_def]
  exact PM.noCfg_bind (PM.noCfg_readTmpChunkZy fs) fun b => PM.noCfg_modify _

theorem PM.noCfg_loadChunksD1 (fs : FS) : PM.noCfg (loadChunksD1 fs) := by
  unfold loadChunksD1
  simp only [monadBind_def]
  refine PM.noCfg_bind PM.noCfg_get fun s => ?_
  split
  · exact PM.noCfg_bind (PM.noCfg_loadNextChunk fs 1) fun b => PM.noCfg_modify _
  · exact PM.noCfg_pure _

theorem PM.noCfg_loadChunksD2 (fs : FS) : PM.noCfg (loadChunksD2 fs) := by
  unfold loadChunksD2
  simp only [monadBind_def]
  refine PM.noCfg_bind PM.noCfg_get fun s => ?_
  split
  · exact PM.noCfg_bind (PM.noCfg_loadNextChunk fs 0) fun b => PM.noCfg_modify _
  · exact PM.noCfg_pure _

theorem PM.noCfg_loadChunksD3 (fs : FS) : PM.noCfg (loadChunksD3 fs) := by
  unfold loadChunksD3 loadCurrentChunk
  simp only [monadBind_def]
  refine PM.noCfg_bind PM.noCfg_get fun s => ?_
  split
  · exact PM.noCfg_bind (PM.noCfg_modify _) fun _ =>
      PM.noCfg_bind (PM.noCfg_readTmpChunkZy fs) fun b =>
      PM.noCfg_bind (PM.noCfg_modify _) fun _ => PM.noCfg_modify _
  · exact PM.noCfg_pure _

theorem PM.noCfg_loadChunks (fs : FS) : PM.noCfg (loadChunks fs) := by
  unfold loadChunks
  simp only [monadBind_def]
  exact PM.noCfg_bind (PM.noCfg_loadChunksD0 fs) fun _ =>
    PM.noCfg_bind (PM.noCfg_loadChunksD1 fs) fun _ =>
    PM.noCfg_bind (PM.noCfg_loadChunksD2 fs) fun _ =>
    PM.noCfg_loadChunksD3 fs

theorem PM.noCfg_xStep (fs : FS) (cso : V3) (tc : Nat) (z y x : Int) :
    PM.noCfg (xStep fs cso tc z y x) := by
  unfold xStep
  simp only [monadBind_def]
  refine PM.noCfg_bind (PM.noCfg_getIndices 2) fun _ => ?_
  refine PM.noCfg_bind PM.noCfg_markNeeded3IfBoth fun _ => ?_
  refine PM.noCfg_bind (PM.noCfg_loadChunks fs) fun _ => ?_
  refine PM.noCfg_bind PM.noCfg_get fun s => ?_
  refine PM.noCfg_bind
    (PM.noCfg_liftE (exceptNoCfg_launchThreads _ _ _ _ _ _ _ _ _ _ _ _)) fun st => ?_
  refine PM.noCfg_bind PM.noCfg_get fun s1 => ?_
  split
  · refine PM.noCfg_bind (PM.noCfg_modify _) fun _ => ?_
    refine PM.noCfg_bind (PM.noCfg_loadChunks fs) fun _ => ?_
    refine PM.noCfg_bind PM.noCfg_get fun s2 => ?_
    refine PM.noCfg_bind
      (PM.noCfg_liftE (exceptNoCfg_launchThreads _ _ _ _ _ _ _ _ _ _ _ _)) fun st2 => ?_
    exact PM.noCfg_bind (PM.noCfg_writeVolumeM _ _) fun _ => PM.noCfg_modify _
  · refine PM.noCfg_bind (PM.noCfg_pure _) fun st2 => ?_
    exact PM.noCfg_bind (PM.noCfg_writeVolumeM _ _) fun _ => PM.noCfg_modify _

theorem PM.noCfg_yStep (fs : FS) (cso vd : V3) (tc : Nat) (z y : Int) :
    PM.noCfg (yStep fs cso vd tc z y) := by
  unfold yStep
  simp only [monadBind_def]
  refine PM.noCfg_bind (PM.noCfg_setIndexEnd 2) fun _ => ?_
  refine PM.noCfg_bind (PM.noCfg_getIndices 1) fun _ => ?_
  refine PM.noCfg_bind PM.noCfg_markNeeded1IfStitch1 fun _ => ?_
  refine PM.noCfg_bind (PM.noCfg_liftE (exceptNoCfg_pyRange _ _)) fun xs => ?_
  exact PM.noCfg_bind (PM.noCfg_forList (fun x => PM.noCfg_xStep fs cso tc z y x) xs)
    fun _ => PM.noCfg_updateAndResetParams 1 cso vd

theorem PM.noCfg_zStep (fs : FS) (cso vd : V3) (tc : Nat) (z : Int) :
    PM.noCfg (zStep fs cso vd tc z) := by
  unfold zStep
  simp only [monadBind_def]
  refine PM.noCfg_bind (PM.noCfg_setIndexEnd 1) fun _ => ?_
  refine PM.noCfg_bind (PM.noCfg_getIndices 0) fun _ => ?_
  refine PM.noCfg_bind PM.noCfg_markNeeded2IfStitch0 fun _ => ?_
  refine PM.noCfg_bind (PM.noCfg_liftE (exceptNoCfg_pyRange _ _)) fun ys => ?_
  exact PM.noCfg_bind (PM.noCfg_forList (fun y => PM.noCfg_yStep fs cso vd tc z y) ys)
    fun _ => PM.noCfg_updateAndResetParams 0 cso vd

theorem PM.noCfg_convertBody (fs : FS) (csi vd cso : V3) (tc : Nat) :
    PM.noCfg (convertBody fs csi vd cso tc) := by
  unfold convertBody
  simp only [monadBind_def]
  refine PM.noCfg_bind (PM.noCfg_initDicts csi vd cso) fun _ => ?_
  refine PM.noCfg_bind (PM.noCfg_liftE (exceptNoCfg_pyRange _ _)) fun zs => ?_
  exact PM.noCfg_forList (fun z => PM.noCfg_zStep fs cso vd tc z) zs

/-- C3: `is_volume_conversion_valid` returns `True` exactly when on every
axis `chunk_size_out <= 2 * chunk_size_in` and `volume_dim >=
chunk_size_out`; and, for a run whose last chunk parses and exists,
`convert_chunked_volume` raises the configuration error if and only if that
check fails on the (ZYX-swapped) parameters. -/
theorem C3_config_error_iff_invalid :
    (∀ a b d : V3, isVolumeConversionValid a b d = true ↔
      (b.v0 ≤ 2 * a.v0 ∧ b.v1 ≤ 2 * a.v1 ∧ b.v2 ≤ 2 * a.v2 ∧
       b.v0 ≤ d.v0 ∧ b.v1 ≤ d.v1 ∧ b.v2 ≤ d.v2)) ∧
    (∀ (fs : FS) (csi cso : V3) (lc : String) (tc : Nat) (a b c : Nat) (buf : Buf),
      parseChunkIndices lc = [a, b, c] →
      fs ((a : Int), (b : Int), (c : Int)) = some buf →
      (PRes.errOf (convertChunkedVolume fs csi lc cso tc) = some PyErr.configError ↔
       isVolumeConversionValid csi.swap cso.swap (volumeDimFrom csi a b c buf).swap =
         false)) := by
  constructor
  · intro a b d
    unfold isVolumeConversionValid
    split
    · rename_i h
      simp only [Bool.false_eq_true, false_iff]
      omega
    · split
      · rename_i h1 h2
        simp only [Bool.false_eq_true, false_iff]
        omega
      · rename_i h1 h2
        simp only [true_iff]
        omega
  · intro fs csi cso lc tc a b c buf hp hf
    rw [convert_run_to_validation fs csi cso lc tc a b c buf hp hf]
    rcases Bool.eq_false_or_eq_true
      (isVolumeConversionValid csi.swap cso.swap (volumeDimFrom csi a b c buf).swap)
      with hv | hv
    · rw [if_pos hv, hv]
      simp only [Bool.true_eq_false, iff_false]
      intro hco
      cases hres : convertBody fs csi.swap (volumeDimFrom csi a b c buf).swap cso.swap tc
          { initSt with evs := [.readEv ((a : Int), (b : Int), (c : Int))] } with
      | ok u s2 =>
        rw [hres] at hco
        exact Option.noConfusion hco
      | err e s2 =>
        rw [hres] at hco
        have he : e = PyErr.configError := by
          simpa [PRes.errOf] using hco
        exact PM.noCfg_convertBody fs csi.swap (volumeDimFrom csi a b c buf).swap cso.swap tc
          _ _ e hres he
    · rw [if_neg (by simp [hv]), hv]
      simp only [eq_self_iff_true, iff_true]
      rfl

/-- C3, witness: a 100-wide output chunk against 1-wide input chunks fails
the check and raises, and the check unfolds to the six inequalities. -/
theorem C3_config_error_iff_invalid_witness :
    (isVolumeConversionValid (V3.mk 1 1 1) (V3.mk 1 1 100) (V3.mk 9 7 5) = true ↔
      ((V3.mk 1 1 100).v0 ≤ 2 * (V3.mk 1 1 1).v0 ∧
       (V3.mk 1 1 100).v1 ≤ 2 * (V3.mk 1 1 1).v1 ∧
       (V3.mk 1 1 100).v2 ≤ 2 * (V3.mk 1 1 1).v2 ∧
       (V3.mk 1 1 100).v0 ≤ (V3.mk 9 7 5).v0 ∧
       (V3.mk 1 1 100).v1 ≤ (V3.mk 9 7 5).v1 ∧
       (V3.mk 1 1 100).v2 ≤ (V3.mk 9 7 5).v2)) ∧
    (PRes.errOf (convertChunkedVolume fsC5 (V3.mk 1 1 1) "x1y2z3.raw" (V3.mk 100 1 1) 1) =
        some PyErr.configError ↔
      isVolumeConversionValid (V3.mk 1 1 1).swap (V3.mk 100 1 1).swap
        (volumeDimFrom (V3.mk 1 1 1) 1 2 3 (bufOfFn 4 5 6 (fun _ _ _ => 0))).swap = false) :=
  ⟨C3_config_error_iff_invalid.1 (V3.mk 1 1 1) (V3.mk 1 1 100) (V3.mk 9 7 5),
   C3_config_error_iff_invalid.2 fsC5 (V3.mk 1 1 1) (V3.mk 100 1 1) "x1y2z3.raw" 1 1 2 3
     (bufOfFn 4 5 6 (fun _ _ _ => 0)) (by decide) (by decide)⟩

/-! #### Closed form of the `__launch_threads` slice partition -/

theorem bandStart_succ_of_end (g spt rem : Int) (i : Nat) :
    bandEnd g spt rem i = bandStart g spt rem (i + 1) := by
  unfold bandStart bandEnd
  rw [if_neg (by omega : ¬(i + 1 = 0))]
  push_cast
  omega

theorem band_len (g spt rem : Int) (hrem : 0 ≤ rem) (i : Nat) :
    bandEnd g spt rem i - bandStart g spt rem i =
      spt + (if 1 ≤ i ∧ (i : Int) ≤ rem then 1 else 0) := by
  unfold bandStart bandEnd
  cases i with
  | zero =>
    rw [if_pos rfl]
    push_cast
    simp only [zero_add, one_mul, zero_mul, add_zero]
    split_ifs with h
    · first
      | exact h.1.elim
      | omega
      | (obtain ⟨h1, h2⟩ := h; omega)
    · first
      | omega
      | (simp only [not_and, true_and, false_and, not_le, not_lt] at h; omega)
      | (simp at h; omega)
  | succ j =>
    rw [if_neg (by omega : ¬(j + 1 = 0))]
    push_cast
    rw [(by ring : ((j : Int) + 1 + 1) * spt = ((j : Int) + 1) * spt + spt)]
    split_ifs with h
    · first
      | exact h.1.elim
      | omega
      | (obtain ⟨h1, h2⟩ := h; omega)
    · first
      | omega
      | (simp only [not_and, true_and, false_and, not_le, not_lt] at h; omega)
      | (simp at h; omega)

theorem launchRangesAux_closed (g spt rem : Int) (hrem : 0 ≤ rem) :
    ∀ (fuel i : Nat),
      launchRangesAux spt rem i fuel (bandStart g spt rem i) (bandEnd g spt rem i) =
        (List.range fuel).map
          (fun k => (bandStart g spt rem (i + k), bandEnd g spt rem (i + k)))
  | 0, i => rfl
  | fuel+1, i => by
    unfold launchRangesAux
    have hs : bandStart g spt rem i + spt +
        (if 0 < i ∧ (i : Int) - 1 < rem then 1 else 0) = bandStart g spt rem (i + 1) := by
      unfold bandStart
      rw [if_neg (by omega : ¬(i + 1 = 0))]
      cases i with
      | zero =>
        rw [if_pos rfl]
        push_cast
        simp only [zero_add, one_mul, zero_mul, add_zero]
        split_ifs with h
        · first
          | exact h.1.elim
          | omega
          | (obtain ⟨h1, h2⟩ := h; omega)
        · first
          | omega
          | (simp only [not_and, true_and, false_and, not_le, not_lt] at h; omega)
          | (simp at h; omega)
      | succ j =>
        rw [if_neg (by omega : ¬(j + 1 = 0))]
        push_cast
        rw [(by ring : ((j : Int) + 1 + 1) * spt = ((j : Int) + 1) * spt + spt)]
        split_ifs with h
        · first
          | exact h.1.elim
          | omega
          | (obtain ⟨h1, h2⟩ := h; omega)
        · first
          | omega
          | (simp only [not_and, true_and, false_and, not_le, not_lt] at h; omega)
          | (simp at h; omega)
    have he : bandEnd g spt rem i + spt + (if (i : Int) < rem then 1 else 0) =
        bandEnd g spt rem (i + 1) := by
      unfold bandEnd
      push_cast
      rw [(by ring : ((i : Int) + 1 + 1) * spt = ((i : Int) + 1) * spt + spt)]
      split_ifs with h
      · first
        | exact h.1.elim
        | omega
        | (obtain ⟨h1, h2⟩ := h; omega)
      · first
        | omega
        | (simp only [not_and, true_and, false_and, not_le, not_lt] at h; omega)
        | (simp at h; omega)
    rw [hs, he, launchRangesAux_closed g spt rem hrem fuel (i+1), List.range_succ_eq_map]
    simp only [List.map_cons, List.map_map, Nat.add_zero]
    refine congrArg₂ List.cons rfl ?_
    apply List.map_congr_left
    intro k _
    simp only [Function.comp_apply]
    exact congrArg (fun m => (bandStart g spt rem m, bandEnd g spt rem m))
      (by omega : i + 1 + k = i + Nat.succ k)

theorem launchRanges_closed (g e spt : Int) (tc : Nat)
    (hrem : 0 ≤ e - (tc : Int) * spt) :
    launchRanges g e spt tc = (List.range tc).map
      (fun k => (bandStart g spt (e - (tc : Int) * spt) k,
                 bandEnd g spt (e - (tc : Int) * spt) k)) := by
  have h0s : g = bandStart g spt (e - (tc : Int) * spt) 0 := by
    unfold bandStart
    simp
  have h0e : spt + g = bandEnd g spt (e - (tc : Int) * spt) 0 := by
    unfold bandEnd
    push_cast
    simp only [zero_add, one_mul]
    omega
  unfold launchRanges
  have hcl := launchRangesAux_closed g spt (e - (tc : Int) * spt) hrem tc 0
  rw [← h0s, ← h0e] at hcl
  rw [hcl]
  simp only [Nat.zero_add]

/-- C6 (amended): `__launch_threads` on a band of `n` slices with
`thread_count = tc >= 1` and `slices_per_thread = n // tc` spawns `tc`
contiguous sub-ranges; the remainder `r = n mod tc` is distributed as one
extra slice to threads `1` through `r`, thread 0 always receiving exactly
`n // tc` slices, and the sub-ranges exactly cover `[0, n)` end to start. -/
theorem C6_remainder_goes_to_threads_one_through_r :
    ∀ (n tc : Nat), 1 ≤ tc →
      ((n : Int) - (tc : Int) * Int.fdiv (n : Int) (tc : Int) = (n : Int) % (tc : Int)) ∧
      launchRanges 0 (n : Int) (Int.fdiv (n : Int) (tc : Int)) tc =
        (List.range tc).map (fun k =>
          (bandStart 0 (Int.fdiv (n : Int) (tc : Int)) ((n : Int) % (tc : Int)) k,
           bandEnd 0 (Int.fdiv (n : Int) (tc : Int)) ((n : Int) % (tc : Int)) k)) ∧
      bandStart 0 (Int.fdiv (n : Int) (tc : Int)) ((n : Int) % (tc : Int)) 0 = 0 ∧
      bandEnd 0 (Int.fdiv (n : Int) (tc : Int)) ((n : Int) % (tc : Int)) (tc - 1) =
        (n : Int) ∧
      (∀ i : Nat,
        bandEnd 0 (Int.fdiv (n : Int) (tc : Int)) ((n : Int) % (tc : Int)) i =
          bandStart 0 (Int.fdiv (n : Int) (tc : Int)) ((n : Int) % (tc : Int)) (i + 1)) ∧
      (∀ i : Nat,
        bandEnd 0 (Int.fdiv (n : Int) (tc : Int)) ((n : Int) % (tc : Int)) i -
          bandStart 0 (Int.fdiv (n : Int) (tc : Int)) ((n : Int) % (tc : Int)) i =
        Int.fdiv (n : Int) (tc : Int) +
          (if 1 ≤ i ∧ (i : Int) ≤ (n : Int) % (tc : Int) then 1 else 0)) := by
  intro n tc htc
  have htc0 : (0 : Int) < (tc : Int) := by exact_mod_cast htc
  have hfd : Int.fdiv (n : Int) (tc : Int) = (n : Int) / (tc : Int) :=
    Int.fdiv_eq_ediv _ (by omega)
  have hrem : (n : Int) - (tc : Int) * Int.fdiv (n : Int) (tc : Int) =
      (n : Int) % (tc : Int) := by
    rw [hfd, Int.emod_def]
  have hr0 : 0 ≤ (n : Int) % (tc : Int) := Int.emod_nonneg _ (by omega)
  have hrlt : (n : Int) % (tc : Int) < (tc : Int) := Int.emod_lt_of_pos _ htc0
  refine ⟨hrem, ?_, ?_, ?_, fun i => bandStart_succ_of_end _ _ _ i,
    fun i => band_len _ _ _ hr0 i⟩
  · rw [launchRanges_closed 0 (n : Int) (Int.fdiv (n : Int) (tc : Int)) tc
      (by rw [hrem]; exact hr0), hrem]
  · unfold bandStart
    push_cast
    ring_nf
  · unfold bandEnd
    have hc : ((tc - 1 : Nat) : Int) = (tc : Int) - 1 := by
      push_cast [htc]
      ring
    rw [hc, hfd]
    have hdm : (tc : Int) * ((n : Int) / (tc : Int)) + (n : Int) % (tc : Int) = (n : Int) :=
      Int.ediv_add_emod _ _
    have hmin : min ((tc : Int) - 1) ((n : Int) % (tc : Int)) = (n : Int) % (tc : Int) := by
      omega
    rw [hmin]
    ring_nf
    ring_nf at hdm
    omega

/-- C6 (amended), witness: five slices on three threads give the ranges
`[0,1) [1,3) [3,5)` — the two extra slices go to threads 1 and 2, thread 0
keeping `5 // 3 = 1` slice. -/
theorem C6_remainder_goes_to_threads_one_through_r_witness :
    (1 : Nat) ≤ 3 ∧
    ((5 : Int) - (3 : Int) * Int.fdiv (5 : Int) (3 : Int) = (5 : Int) % (3 : Int)) ∧
    launchRanges 0 (5 : Int) (Int.fdiv (5 : Int) (3 : Int)) 3 =
      (List.range 3).map (fun k =>
        (bandStart 0 (Int.fdiv (5 : Int) (3 : Int)) ((5 : Int) % (3 : Int)) k,
         bandEnd 0 (Int.fdiv (5 : Int) (3 : Int)) ((5 : Int) % (3 : Int)) k)) ∧
    bandStart 0 (Int.fdiv (5 : Int) (3 : Int)) ((5 : Int) % (3 : Int)) 0 = 0 ∧
    bandEnd 0 (Int.fdiv (5 : Int) (3 : Int)) ((5 : Int) % (3 : Int)) (3 - 1) = (5 : Int) ∧
    (∀ i : Nat,
      bandEnd 0 (Int.fdiv (5 : Int) (3 : Int)) ((5 : Int) % (3 : Int)) i =
        bandStart 0 (Int.fdiv (5 : Int) (3 : Int)) ((5 : Int) % (3 : Int)) (i + 1)) ∧
    (∀ i : Nat,
      bandEnd 0 (Int.fdiv (5 : Int) (3 : Int)) ((5 : Int) % (3 : Int)) i -
        bandStart 0 (Int.fdiv (5 : Int) (3 : Int)) ((5 : Int) % (3 : Int)) i =
      Int.fdiv (5 : Int) (3 : Int) +
        (if 1 ≤ i ∧ (i : Int) ≤ (5 : Int) % (3 : Int) then 1 else 0)) :=
  ⟨by decide, C6_remainder_goes_to_threads_one_through_r 5 3 (by decide)⟩

end Volcanite

